import Mathlib

/-!
# Verification of the balance-board game core (src/game.c)

A shallow embedding of the input-driven control and game-state engine of the
balance-board arcade game. C `float`/`double` values are modelled as exact
rationals (`ℚ`), C `int` as `ℤ`, `Uint32` tick counts as `ℕ` (assuming no
wraparound within a session). Calls to `rand()` are modelled by an explicit
stream `r : ℕ → ℕ` of non-negative values; file persistence (the per-profile
score/wins/high-score files) is modelled by three fields of the global state
holding the current file contents. Comparisons of `hypot dx dy` against a
non-negative radius are embedded as the equivalent comparison of
`dx^2 + dy^2` against the squared radius, which avoids square roots while
denoting the same real-number test.
-/

namespace BalanceGame

/-! ## Configuration constants (from the `#define` block of game.c) -/

def WINDOW_WIDTH : ℚ := 1920
def WINDOW_HEIGHT : ℚ := 1080
def GAME_OBJECT_SIZE : ℚ := 150
def COB_SCALE_GENERAL : ℚ := 15 / 100000
def COB_SCALE_DODGE : ℚ := 25 / 100000
def DEAD_ZONE : ℚ := 400
def TRAIL_LENGTH : ℕ := 60
def WIN_ANIMATION_DURATION : ℕ := 2500
def POLL_TIMEOUT_THRESHOLD : ℕ := 100
def MAX_DODGE_BLOCKS : ℕ := 10
def BLOCK_WIDTH : ℚ := 50
def BLOCK_HEIGHT : ℚ := 100
def BLOCK_INITIAL_SPEED : ℚ := 300
def BLOCK_SPEED_INCREMENT : ℚ := 50
def BLOCK_SPAWN_INTERVAL : ℚ := 2
def MENU_SELECT_TIME_REQUIRED : ℚ := 3 / 2
def TRANSITION_DURATION : ℚ := 3 / 2
def MIN_TOTAL_WEIGHT : ℚ := 2000
def INACTIVITY_TIMEOUT_SECONDS : ℕ := 15
def BH_HOLD_TIME_REQUIRED : ℚ := 3 / 2
def BH_GRACE_ZONE_RADIUS : ℚ := 200
def BH_HOLD_RADIUS : ℚ := 100
def BH_TARGET_MOVEMENT_SPEED_EASY : ℚ := 0
def BH_TARGET_MOVEMENT_SPEED_MEDIUM : ℚ := 25
def BH_TARGET_MOVEMENT_SPEED_HARD : ℚ := 50
def COIN_SAFE_MARGIN : ℚ := 300
def STARTING_COIN_SIZE : ℚ := 150
def CC_COIN_TIMER : ℚ := 10
def COIN_SPAWN_MIN_DIST_PLAYER : ℚ := 250
def SPRING_CONSTANT : ℚ := 10
def DAMPING_FACTOR : ℚ := 5
def NUM_CONFETTI : ℕ := 150
def CONFETTI_LIFETIME : ℚ := 2
def CONFETTI_GRAVITY : ℚ := 200
def CONFETTI_SPREAD : ℚ := 300

/-! ## Data structures (from the typedef block of game.c) -/

inductive GameState where
  | CONNECTING
  | TRANSITIONING
  | PLAYER_SELECTION
  | MAIN_MENU
  | DIFFICULTY_SELECTION
  | GAME_BALANCE_HOLD
  | GAME_COIN_COLLECTOR
  | GAME_DODGE
  | WINNING
deriving DecidableEq

inductive GameType where
  | NO_GAME_SELECTED
  | BALANCE_HOLD
  | COIN_COLLECTOR
  | DODGE
deriving DecidableEq

inductive Difficulty where
  | EASY
  | MEDIUM
  | HARD
deriving DecidableEq

structure PlayerObject where
  x : ℚ
  y : ℚ
  velocity_x : ℚ
  velocity_y : ℚ
deriving DecidableEq

structure TargetObject where
  x : ℚ
  y : ℚ
  velocity_x : ℚ
  velocity_y : ℚ
deriving DecidableEq

structure ConfettiParticle where
  x : ℚ
  y : ℚ
  vx : ℚ
  vy : ℚ
  lifetime : ℚ
deriving DecidableEq

structure Coin where
  x : ℚ
  y : ℚ
  active : Bool
deriving DecidableEq

structure DodgeBlock where
  x : ℚ
  y : ℚ
  speed : ℚ
  active : Bool
deriving DecidableEq

instance : Inhabited DodgeBlock := ⟨⟨0, 0, 0, false⟩⟩
instance : Inhabited Coin := ⟨⟨0, 0, false⟩⟩

/-! ## Motion Smoother (update_player_position, lines 808-823) -/

/-- Embeds `update_player_position` from game.c: damped-spring force, explicit
Euler integration of velocity and position with the given `delta_time`, then
clamping to the window interior with velocity zeroed on clamp contact.
The trail push (a global side effect) is modelled separately. -/
def update_player_position (player : PlayerObject) (target_x target_y delta_time : ℚ) :
    PlayerObject :=
  let force_x := (target_x - player.x) * SPRING_CONSTANT - player.velocity_x * DAMPING_FACTOR
  let force_y := (target_y - player.y) * SPRING_CONSTANT - player.velocity_y * DAMPING_FACTOR
  let vx := player.velocity_x + force_x * delta_time
  let vy := player.velocity_y + force_y * delta_time
  let x := player.x + vx * delta_time
  let y := player.y + vy * delta_time
  let xvx : ℚ × ℚ :=
    if x < GAME_OBJECT_SIZE / 2 then (GAME_OBJECT_SIZE / 2, 0)
    else if x > WINDOW_WIDTH - GAME_OBJECT_SIZE / 2 then (WINDOW_WIDTH - GAME_OBJECT_SIZE / 2, 0)
    else (x, vx)
  let yvy : ℚ × ℚ :=
    if y < GAME_OBJECT_SIZE / 2 then (GAME_OBJECT_SIZE / 2, 0)
    else if y > WINDOW_HEIGHT - GAME_OBJECT_SIZE / 2 then (WINDOW_HEIGHT - GAME_OBJECT_SIZE / 2, 0)
    else (y, vy)
  ⟨xvx.1, yvy.1, xvx.2, yvy.2⟩

/-- Iterated Motion Smoother steps with a fixed target and fixed `delta_time`. -/
def stepPlayerN (target_x target_y delta_time : ℚ) : ℕ → PlayerObject → PlayerObject
  | 0, p => p
  | n + 1, p => stepPlayerN target_x target_y delta_time n
      (update_player_position p target_x target_y delta_time)

/-! ## Global game state

One record gathering the global variables of game.c that the core logic
reads and writes, plus the three per-profile persistence files (modelled by
their current contents: `fileLowest` for score.txt, `fileWins` for wins.txt,
`fileDodgeHigh` for dodge_score.txt) and a flag `iface_connected` modelling
`iface != NULL && fd >= 0`. -/

structure GS where
  state : GameState
  poll_timeout_count : ℕ
  menu_select_timer : ℚ
  selected_game : GameType
  current_difficulty : Difficulty
  difficulty_selection : ℤ
  selected_player_index : ℤ
  player_selection_choice : ℤ
  current_game_target : ℤ
  hold_timer : ℚ
  coins : ℤ
  beeps_played : ℤ
  game_start_time : ℕ
  win_message_start_time : ℕ
  lowest_time_to_win : ℚ
  total_wins : ℤ
  coin_timer : ℚ
  coin_collector_coins : List Coin
  dodge_blocks : List DodgeBlock
  block_spawn_timer : ℚ
  current_block_speed : ℚ
  dodge_score : ℤ
  dodge_high_score : ℤ
  dynamic_block_spawn_interval : ℚ
  player : PlayerObject
  balance_hold_target : TargetObject
  trail_points : List PlayerObject
  trail_head : ℕ
  x_cob : ℚ
  y_cob : ℚ
  current_total_weight : ℚ
  last_input_time : ℕ
  last_frame_time : ℕ
  transition_start_time : ℕ
  confetti : List ConfettiParticle
  fileLowest : ℚ
  fileWins : ℤ
  fileDodgeHigh : ℤ
  iface_connected : Bool
deriving DecidableEq

/-- The global-variable initializers of game.c (file contents at their
missing-file defaults: no best time, zero wins, zero high score). -/
def initGS : GS where
  state := .CONNECTING
  poll_timeout_count := 0
  menu_select_timer := 0
  selected_game := .NO_GAME_SELECTED
  current_difficulty := .EASY
  difficulty_selection := 0
  selected_player_index := -1
  player_selection_choice := 0
  current_game_target := 0
  hold_timer := 0
  coins := 0
  beeps_played := 0
  game_start_time := 0
  win_message_start_time := 0
  lowest_time_to_win := -1
  total_wins := 0
  coin_timer := 0
  coin_collector_coins := List.replicate 30 ⟨0, 0, false⟩
  dodge_blocks := List.replicate MAX_DODGE_BLOCKS ⟨0, 0, 0, false⟩
  block_spawn_timer := 0
  current_block_speed := BLOCK_INITIAL_SPEED
  dodge_score := 0
  dodge_high_score := 0
  dynamic_block_spawn_interval := BLOCK_SPAWN_INTERVAL
  player := ⟨0, 0, 0, 0⟩
  balance_hold_target := ⟨0, 0, 0, 0⟩
  trail_points := List.replicate TRAIL_LENGTH ⟨0, 0, 0, 0⟩
  trail_head := 0
  x_cob := 0
  y_cob := 0
  current_total_weight := 0
  last_input_time := 0
  last_frame_time := 0
  transition_start_time := 0
  confetti := List.replicate NUM_CONFETTI ⟨0, 0, 0, 0, 0⟩
  fileLowest := -1
  fileWins := 0
  fileDodgeHigh := 0
  iface_connected := false

/-- Embeds `reset_game_state` (lines 284-302): closes the interface and
clears the timeout counter, menu timer, all selections, and the per-game
counters. -/
def reset_game_state (g : GS) : GS :=
  { g with
    iface_connected := false
    poll_timeout_count := 0
    menu_select_timer := 0
    selected_game := .NO_GAME_SELECTED
    difficulty_selection := 0
    selected_player_index := -1
    player_selection_choice := 0
    current_game_target := 0
    hold_timer := 0
    coins := 0
    beeps_played := 0 }

/-! ## Sensor Reader (read_wii_balance_board_data, lines 645-700) -/

/-- One balance event's four raw corner readings (the values
`event.v.abs[k].x` with the source's TL=2, TR=0, BL=3, BR=1 mapping). -/
structure BBEvent where
  tl : ℚ
  tr : ℚ
  bl : ℚ
  br : ℚ
deriving DecidableEq

/-- Total weight of an event as the source computes it:
the four cells `raw/100` summed, then scaled back by 100
(`current_total_weight = total_weight * 100.0f`). -/
def event_weight (e : BBEvent) : ℚ :=
  (e.tl / 100 + e.tr / 100 + e.bl / 100 + e.br / 100) * 100

/-- Raw x CoB of an event: `(TR + BR - TL - BL)` in cell units times 100. -/
def event_x_cob (e : BBEvent) : ℚ :=
  (e.tr / 100 + e.br / 100 - e.tl / 100 - e.bl / 100) * 100

/-- Raw y CoB of an event: `(TL + TR - BL - BR)` in cell units times 100. -/
def event_y_cob (e : BBEvent) : ℚ :=
  (e.tl / 100 + e.tr / 100 - e.bl / 100 - e.br / 100) * 100

/-- Outcome of one `poll()` call on the device fd. -/
inductive PollResult where
  | err
  | timeout
  | events (es : List BBEvent)

/-- Result of one `read_wii_balance_board_data` call: the returned status
(-1 modelled as `disconnected = true`), the out-parameters, and the new
values of the globals it touches. -/
structure ReadResult where
  disconnected : Bool
  x_cob : ℚ
  y_cob : ℚ
  poll_timeout_count : ℕ
  current_total_weight : ℚ
deriving DecidableEq

/-- The event-dispatch loop of `read_wii_balance_board_data`: every balance
event updates `current_total_weight`; only events whose total weight exceeds
`MIN_TOTAL_WEIGHT` (the anti-noise gate) write the CoB out-parameters, each
axis zeroed independently when its magnitude is below `DEAD_ZONE`. -/
def process_events : List BBEvent → ℚ → ℚ → ℚ → Bool → ℚ × ℚ × ℚ × Bool
  | [], x, y, w, got => (x, y, w, got)
  | e :: rest, x, y, _, got =>
    let w := event_weight e
    if w > MIN_TOTAL_WEIGHT then
      let nx := event_x_cob e
      let nx := if |nx| < DEAD_ZONE then 0 else nx
      let ny := event_y_cob e
      let ny := if |ny| < DEAD_ZONE then 0 else ny
      process_events rest nx ny w true
    else
      process_events rest x y w got

/-- Embeds `read_wii_balance_board_data`: no interface is an immediate
disconnect with zeroed CoB; a poll error is a disconnect; a poll timeout
increments the consecutive-timeout counter and reports disconnect once it
reaches `POLL_TIMEOUT_THRESHOLD`; received events reset the counter and are
folded by `process_events`, with the CoB zeroed if no event passed the
weight gate. -/
def read_wii_balance_board_data (g : GS) (p : PollResult) : ReadResult :=
  if g.iface_connected = false then
    ⟨true, 0, 0, g.poll_timeout_count, g.current_total_weight⟩
  else
    match p with
    | .err => ⟨true, g.x_cob, g.y_cob, g.poll_timeout_count, g.current_total_weight⟩
    | .timeout =>
      let c := g.poll_timeout_count + 1
      if c ≥ POLL_TIMEOUT_THRESHOLD then
        ⟨true, g.x_cob, g.y_cob, c, g.current_total_weight⟩
      else
        ⟨false, g.x_cob, g.y_cob, c, g.current_total_weight⟩
    | .events es =>
      let r := process_events es g.x_cob g.y_cob g.current_total_weight false
      if r.2.2.2 then ⟨false, r.1, r.2.1, 0, r.2.2.1⟩
      else ⟨false, 0, 0, 0, r.2.2.1⟩

/-! ## Game-object helpers (init and zone functions of game.c) -/

/-- Embeds `is_in_zone` (lines 789-794): player within `zone_radius` of the
target's center, `hypot dx dy <= r` embedded as `dx^2 + dy^2 <= r^2`. -/
def is_in_zone (player : PlayerObject) (target : TargetObject) (zone_radius : ℚ) : Bool :=
  let dx := player.x - target.x
  let dy := player.y - target.y
  decide (dx ^ 2 + dy ^ 2 ≤ zone_radius ^ 2)

/-- Embeds `init_player` (lines 703-714): avatar centered at rest, the whole
trail filled with the starting position, trail head reset. -/
def init_player (g : GS) : GS :=
  let p : PlayerObject := ⟨WINDOW_WIDTH / 2, WINDOW_HEIGHT / 2, 0, 0⟩
  { g with player := p, trail_points := List.replicate TRAIL_LENGTH p, trail_head := 0 }

/-- Embeds `init_confetti` (lines 524-534): `NUM_CONFETTI` particles at the
given position with velocities `rand() % CONFETTI_SPREAD - CONFETTI_SPREAD/2`
and full lifetime. Each particle consumes three `rand()` calls in the source
(vx, vy, color); the color draw is consumed but unused here. -/
def init_confetti (x y : ℚ) (r : ℕ → ℕ) : List ConfettiParticle :=
  (List.range NUM_CONFETTI).map fun i =>
    ⟨x, y, ((r (3 * i) % 300 : ℕ) : ℚ) - 150, ((r (3 * i + 1) % 300 : ℕ) : ℚ) - 150,
      CONFETTI_LIFETIME⟩

/-- Embeds `update_confetti` (lines 536-545): alive particles integrate
position with current velocity, then gravity and lifetime decay. -/
def update_confetti (cs : List ConfettiParticle) (delta_time : ℚ) : List ConfettiParticle :=
  cs.map fun c =>
    if c.lifetime > 0 then
      ⟨c.x + c.vx * delta_time, c.y + c.vy * delta_time, c.vx,
        c.vy + CONFETTI_GRAVITY * delta_time, c.lifetime - delta_time⟩
    else c

/-- Embeds `init_balance_hold_game` (lines 716-731): random target inside the
interior margin, difficulty-scaled velocity with random signs, timers reset. -/
def init_balance_hold_game (g : GS) (now : ℕ) (r : ℕ → ℕ) : GS :=
  let g := init_player g
  let tx : ℚ := ((r 0 % 1620 : ℕ) : ℚ) + 150
  let ty : ℚ := ((r 1 % 780 : ℕ) : ℚ) + 150
  let movement_speed :=
    match g.current_difficulty with
    | .EASY => BH_TARGET_MOVEMENT_SPEED_EASY
    | .MEDIUM => BH_TARGET_MOVEMENT_SPEED_MEDIUM
    | .HARD => BH_TARGET_MOVEMENT_SPEED_HARD
  let vx := if r 2 % 2 = 0 then movement_speed else -movement_speed
  let vy := if r 3 % 2 = 0 then movement_speed else -movement_speed
  { g with
    balance_hold_target := ⟨tx, ty, vx, vy⟩
    game_start_time := now
    hold_timer := 0
    beeps_played := 0 }

/-- The rejection-sampling coin spawn loop shared verbatim by
`init_coin_collector_game` (lines 740-755) and the respawn in the
Coin-Collector frame (lines 1193-1208): draw a candidate inside the safe
margin, accept only if its distance from the avatar exceeds
`COIN_SPAWN_MIN_DIST_PLAYER` (`hypot > 250` embedded as squares). The source
loop is unbounded; `fuel` bounds the model, `none` standing for
non-termination. -/
def spawn_coin_loop (px py : ℚ) : (ℕ → ℕ) → ℕ → Option (ℚ × ℚ)
  | _, 0 => none
  | r, fuel + 1 =>
    let new_coin_x : ℚ := ((r 0 % 1320 : ℕ) : ℚ) + COIN_SAFE_MARGIN
    let new_coin_y : ℚ := ((r 1 % 480 : ℕ) : ℚ) + COIN_SAFE_MARGIN
    let dist_x := new_coin_x - px
    let dist_y := new_coin_y - py
    if dist_x ^ 2 + dist_y ^ 2 > COIN_SPAWN_MIN_DIST_PLAYER ^ 2 then
      some (new_coin_x, new_coin_y)
    else
      spawn_coin_loop px py (fun n => r (n + 2)) fuel

/-- Embeds `init_coin_collector_game` (lines 733-763): player reset, the
first `current_game_target` coin slots deactivated, the first coin spawned
by the rejection loop, session counters and (hard mode only) the per-coin
countdown initialized. `none` models a never-terminating spawn loop. -/
def init_coin_collector_game (g : GS) (now : ℕ) (r : ℕ → ℕ) (fuel : ℕ) : Option GS :=
  let g := init_player g
  let cs := (g.coin_collector_coins.zip (List.range g.coin_collector_coins.length)).map
    fun ci => if (ci.2 : ℤ) < g.current_game_target then { ci.1 with active := false } else ci.1
  let g := { g with coin_collector_coins := cs }
  match spawn_coin_loop g.player.x g.player.y r fuel with
  | none => none
  | some xy =>
    let g := { g with
      coin_collector_coins := g.coin_collector_coins.set 0 ⟨xy.1, xy.2, true⟩
      game_start_time := now
      coins := 0 }
    let g :=
      match g.current_difficulty with
      | .HARD => { g with coin_timer := CC_COIN_TIMER }
      | _ => g
    some g

/-- Embeds `init_dodge_game` (lines 765-774): blocks deactivated, spawn
timer, block speed, and score reset, session start stamped. The dynamic
spawn interval is deliberately not touched here. -/
def init_dodge_game (g : GS) (now : ℕ) : GS :=
  let g := init_player g
  { g with
    dodge_blocks := g.dodge_blocks.map fun b => { b with active := false }
    block_spawn_timer := 0
    current_block_speed := BLOCK_INITIAL_SPEED
    dodge_score := 0
    game_start_time := now }

/-- First inactive slot index in the block pool, as the linear scan in
`spawn_dodge_block` finds it. -/
def find_inactive : List DodgeBlock → ℕ → Option ℕ
  | [], _ => none
  | b :: rest, i => if b.active then find_inactive rest (i + 1) else some i

/-- Embeds `spawn_dodge_block` (lines 776-786): the first inactive slot is
activated at the right edge with a random row and the current block speed. -/
def spawn_dodge_block (g : GS) (r : ℕ → ℕ) : GS :=
  match find_inactive g.dodge_blocks 0 with
  | none => g
  | some i =>
    { g with
      dodge_blocks := g.dodge_blocks.set i
        ⟨WINDOW_WIDTH + BLOCK_WIDTH, ((r 0 % 980 : ℕ) : ℚ), g.current_block_speed, true⟩ }

/-! ## Three-zone timed selection (duplicated at the three menu screens) -/

/-- The zone bucketing shared by PLAYER_SELECTION (lines 1013-1018),
MAIN_MENU (lines 1046-1051) and DIFFICULTY_SELECTION (lines 1081-1086):
no choice unless the total weight exceeds the anti-noise minimum, then
left (`x < -200`) / center (`|x| < 150`) / right (`x > 200`). -/
def zone_choice (weight x_cob : ℚ) : ℤ :=
  if weight > MIN_TOTAL_WEIGHT then
    if x_cob < -200 then 1
    else if |x_cob| < 150 then 2
    else if x_cob > 200 then 3
    else 0
  else 0

/-- The selection-timer update duplicated at the three menu screens: the
timer is zeroed when the choice changed since the previous frame,
accumulates `delta_time` while a non-empty choice is held, and commits
(resetting to zero) on reaching `MENU_SELECT_TIME_REQUIRED`. Returns the new
timer value and whether the choice committed this frame. -/
def selection_timer_step {α : Type} [DecidableEq α] (empty prev cur : α)
    (timer delta_time : ℚ) : ℚ × Bool :=
  let t := if cur ≠ prev then 0 else timer
  let t := if cur ≠ empty then t + delta_time else t
  if t ≥ MENU_SELECT_TIME_REQUIRED then (0, true) else (t, false)

/-! ## Per-state frame handlers (the switch in main, lines 971-1308) -/

/-- The trail-push side effect of `update_player_position` (lines 821-822):
store the new player in the ring buffer and advance the head. -/
def push_trail (g : GS) (p : PlayerObject) : GS :=
  { g with
    player := p
    trail_points := g.trail_points.set g.trail_head p
    trail_head := (g.trail_head + 1) % TRAIL_LENGTH }

/-- The PLAYER_SELECTION case (lines 1006-1036): three-zone bucketing, the
shared timer logic, and on commit the player index is fixed, the profile's
best time and total wins are loaded from the persistence files, and the
machine moves to MAIN_MENU. -/
def step_player_selection (g : GS) (delta_time : ℚ) : GS :=
  let prev := g.player_selection_choice
  let choice := zone_choice g.current_total_weight g.x_cob
  let ts := selection_timer_step 0 prev choice g.menu_select_timer delta_time
  if ts.2 then
    { g with
      player_selection_choice := choice
      selected_player_index := choice - 1
      lowest_time_to_win := g.fileLowest
      total_wins := g.fileWins
      state := .MAIN_MENU
      menu_select_timer := 0 }
  else
    { g with player_selection_choice := choice, menu_select_timer := ts.1 }

/-- The game mapped to each zone at MAIN_MENU (lines 1048-1050):
left = Balance Hold, center = Dodge, right = Coin Collector. -/
def game_for_zone : ℤ → GameType
  | 1 => .BALANCE_HOLD
  | 2 => .DODGE
  | 3 => .COIN_COLLECTOR
  | _ => .NO_GAME_SELECTED

/-- The MAIN_MENU case (lines 1038-1071): same zone/timer logic over
`selected_game`; committing Dodge loads the profile high score and starts
the mode immediately, other games go to DIFFICULTY_SELECTION. -/
def step_main_menu (g : GS) (delta_time : ℚ) (now : ℕ) : GS :=
  let prev := g.selected_game
  let sel := game_for_zone (zone_choice g.current_total_weight g.x_cob)
  let ts := selection_timer_step .NO_GAME_SELECTED prev sel g.menu_select_timer delta_time
  if ts.2 then
    let g := { g with selected_game := sel }
    let g :=
      match sel with
      | .DODGE =>
        init_dodge_game { g with state := .GAME_DODGE, dodge_high_score := g.fileDodgeHigh } now
      | _ => { g with state := .DIFFICULTY_SELECTION }
    { g with menu_select_timer := 0 }
  else
    { g with selected_game := sel, menu_select_timer := ts.1 }

/-- The DIFFICULTY_SELECTION case (lines 1073-1118): same zone/timer logic
over `difficulty_selection`; committing fixes the difficulty, sets the mode
target score, and runs the selected game's init. `none` models the
Coin-Collector init's spawn loop not terminating within `fuel`. -/
def step_difficulty_selection (g : GS) (delta_time : ℚ) (now : ℕ) (r : ℕ → ℕ)
    (fuel : ℕ) : Option GS :=
  let prev := g.difficulty_selection
  let choice := zone_choice g.current_total_weight g.x_cob
  let ts := selection_timer_step 0 prev choice g.menu_select_timer delta_time
  if ts.2 then
    let g := { g with difficulty_selection := choice }
    let g :=
      match choice with
      | 1 => { g with current_difficulty := .EASY }
      | 2 => { g with current_difficulty := .MEDIUM }
      | 3 => { g with current_difficulty := .HARD }
      | _ => g
    match g.selected_game with
    | .BALANCE_HOLD =>
      let g := { g with
        state := .GAME_BALANCE_HOLD
        current_game_target :=
          match g.current_difficulty with
          | .EASY => 10
          | .HARD => 25
          | .MEDIUM => 15 }
      let g := init_balance_hold_game g now r
      some { g with coins := 0, menu_select_timer := 0 }
    | .COIN_COLLECTOR =>
      let g := { g with
        state := .GAME_COIN_COLLECTOR
        current_game_target :=
          match g.current_difficulty with
          | .EASY => 15
          | .HARD => 30
          | .MEDIUM => 20 }
      match init_coin_collector_game g now r fuel with
      | none => none
      | some g => some { g with coins := 0, menu_select_timer := 0 }
    | .DODGE =>
      some { init_dodge_game { g with state := .GAME_DODGE } now with menu_select_timer := 0 }
    | .NO_GAME_SELECTED => some { g with menu_select_timer := 0 }
  else
    some { g with difficulty_selection := choice, menu_select_timer := ts.1 }

/-- The `if (state == WINNING)` entry block at the end of the Balance-Hold /
Coin-Collector case (lines 1221-1233): stamp the win time, update the
persisted best time if improved, increment and persist the total-win
counter, and initialize the confetti burst at the avatar. A no-op when the
state did not become WINNING. -/
def winning_entry (g : GS) (now : ℕ) (r : ℕ → ℕ) : GS :=
  if g.state = .WINNING then
    let win_time : ℚ := ((now - g.game_start_time : ℕ) : ℚ) / 1000
    let g := { g with win_message_start_time := now }
    let g :=
      if g.lowest_time_to_win = -1 ∨ win_time < g.lowest_time_to_win then
        { g with lowest_time_to_win := win_time, fileLowest := win_time }
      else g
    { g with
      total_wins := g.total_wins + 1
      fileWins := g.total_wins + 1
      confetti := init_confetti g.player.x g.player.y r }
  else g

/-- The Coin-Collector coin scan (lines 1183-1218): each active coin within
the enlarged capture radius is collected; unless the target count is
reached (→ WINNING), the next coin is spawned by the rejection loop and the
hard-mode countdown restarts. `none` models a non-terminating respawn. -/
def coin_loop (fuel : ℕ) : GS → (ℕ → ℕ) → List ℕ → Option GS
  | g, _, [] => some g
  | g, r, i :: rest =>
    let c := g.coin_collector_coins.getD i default
    if c.active ∧ is_in_zone g.player ⟨c.x, c.y, 0, 0⟩ (STARTING_COIN_SIZE * (6 / 5)) then
      let g := { g with
        coin_collector_coins := g.coin_collector_coins.set i { c with active := false }
        coins := g.coins + 1 }
      if g.coins < g.current_game_target then
        match spawn_coin_loop g.player.x g.player.y r fuel with
        | none => none
        | some xy =>
          let g := { g with
            coin_collector_coins := g.coin_collector_coins.set (i + 1) ⟨xy.1, xy.2, true⟩ }
          let g :=
            match g.current_difficulty with
            | .HARD => { g with coin_timer := CC_COIN_TIMER }
            | _ => g
          coin_loop fuel g (fun n => r (n + 2 * fuel)) rest
      else
        coin_loop fuel { g with state := .WINNING } r rest
    else
      coin_loop fuel g r rest

/-- The Balance-Hold rules of the combined case (lines 1124-1168), applied
after the Motion Smoother step: move and bounce the target, accumulate or
reset the hold timer, count a completed hold, and enter WINNING at the
target count, then the WINNING entry block. -/
def step_balance_hold (g : GS) (now : ℕ) (r : ℕ → ℕ) (delta_time : ℚ) : GS :=
  let t := g.balance_hold_target
  let t := { t with x := t.x + t.velocity_x * delta_time, y := t.y + t.velocity_y * delta_time }
  let t :=
    if t.x < BH_GRACE_ZONE_RADIUS ∨ t.x > WINDOW_WIDTH - BH_GRACE_ZONE_RADIUS then
      { t with velocity_x := -t.velocity_x }
    else t
  let t :=
    if t.y < BH_GRACE_ZONE_RADIUS ∨ t.y > WINDOW_HEIGHT - BH_GRACE_ZONE_RADIUS then
      { t with velocity_y := -t.velocity_y }
    else t
  let g := { g with balance_hold_target := t }
  let g :=
    if is_in_zone g.player t BH_HOLD_RADIUS then
      { g with hold_timer := g.hold_timer + delta_time }
    else
      { g with hold_timer := 0, beeps_played := 0 }
  let g :=
    if g.hold_timer ≥ BH_HOLD_TIME_REQUIRED then
      let g := { g with coins := g.coins + 1 }
      if g.coins ≥ g.current_game_target then { g with state := .WINNING }
      else init_balance_hold_game g now r
    else g
  winning_entry g now r

/-- The Coin-Collector rules of the combined case (lines 1170-1234), applied
after the Motion Smoother step: in hard mode the countdown runs and its
expiry resets the session and `continue`s to MAIN_MENU; otherwise the coin
scan runs, then the WINNING entry block. -/
def step_coin_collector (g : GS) (delta_time : ℚ) (now : ℕ) (r : ℕ → ℕ)
    (fuel : ℕ) : Option GS :=
  match g.current_difficulty with
  | .HARD =>
    let g := { g with coin_timer := g.coin_timer - delta_time }
    if g.coin_timer ≤ 0 then
      some { reset_game_state g with state := .MAIN_MENU }
    else
      match coin_loop fuel g r (List.range g.current_game_target.toNat) with
      | none => none
      | some g => some (winning_entry g now r)
  | _ =>
    match coin_loop fuel g r (List.range g.current_game_target.toNat) with
    | none => none
    | some g => some (winning_entry g now r)

/-- The combined GAME_BALANCE_HOLD / GAME_COIN_COLLECTOR case
(lines 1120-1234): CoB-derived target, Motion Smoother step with trail push,
then per-mode rules. `none` models a non-terminating coin respawn loop. -/
def step_balance_or_coin (g : GS) (delta_time : ℚ) (now : ℕ) (r : ℕ → ℕ)
    (fuel : ℕ) : Option GS :=
  let target_x := WINDOW_WIDTH / 2 + g.x_cob * COB_SCALE_GENERAL * WINDOW_WIDTH
  let target_y := WINDOW_HEIGHT / 2 + g.y_cob * (-COB_SCALE_GENERAL) * WINDOW_HEIGHT
  let g := push_trail g (update_player_position g.player target_x target_y delta_time)
  if g.state = .GAME_BALANCE_HOLD then some (step_balance_hold g now r delta_time)
  else step_coin_collector g delta_time now r fuel

/-- C float-to-int conversion: truncation toward zero. -/
def truncZ (q : ℚ) : ℤ :=
  if q < 0 then ⌈q⌉ else ⌊q⌋

/-- `SDL_HasIntersection` on two integer rectangles with positive extents:
non-empty overlap in both axes. -/
def rects_intersect (ax ay aw ah bx qy bw bh : ℤ) : Bool :=
  decide (ax < bx + bw) && decide (bx < ax + aw) &&
    decide (ay < qy + bh) && decide (qy < ay + ah)

/-- The collision test of the Dodge loop (lines 1260-1272): the block's and
the avatar's integer rectangles intersect. -/
def block_hits_player (b : DodgeBlock) (p : PlayerObject) : Bool :=
  rects_intersect (truncZ b.x) (truncZ b.y) 50 100
    (truncZ (p.x - 75)) (truncZ (p.y - 75)) 150 150

/-- The Dodge block scan (lines 1249-1278): each active block moves left;
a block fully past the left edge is retired (deactivated, score +1,
persisted high score updated if exceeded); a block overlapping the avatar
ends the round (state becomes WINNING) and breaks out of the scan. -/
def dodge_block_loop (delta_time : ℚ) : GS → List ℕ → GS
  | g, [] => g
  | g, i :: rest =>
    let b := g.dodge_blocks.getD i default
    if b.active then
      let moved := { b with x := b.x - b.speed * delta_time }
      let g2 :=
        if moved.x + BLOCK_WIDTH < 0 then
          let score := g.dodge_score + 1
          let g3 := { g with
            dodge_score := score
            dodge_blocks := g.dodge_blocks.set i { moved with active := false } }
          if score > g.dodge_high_score then
            { g3 with dodge_high_score := score, fileDodgeHigh := score }
          else g3
        else { g with dodge_blocks := g.dodge_blocks.set i moved }
      if block_hits_player moved g.player then
        { g2 with state := .WINNING }
      else
        dodge_block_loop delta_time g2 rest
    else
      dodge_block_loop delta_time g rest

/-- The GAME_DODGE case (lines 1236-1286): the Motion Smoother runs only
when there is actual input (weight above the minimum and some CoB component
beyond the dead zone); then the block scan, the spawn timer against the
dynamic interval, the speed ramp, and the interval decay with its 0.5 s
floor. -/
def step_dodge (g : GS) (delta_time : ℚ) (r : ℕ → ℕ) : GS :=
  let target_x := WINDOW_WIDTH / 2 + g.x_cob * COB_SCALE_DODGE * WINDOW_WIDTH
  let target_y := WINDOW_HEIGHT / 2 + g.y_cob * (-COB_SCALE_DODGE) * WINDOW_HEIGHT
  let g :=
    if g.current_total_weight > MIN_TOTAL_WEIGHT ∧ (|g.x_cob| > DEAD_ZONE ∨ |g.y_cob| > DEAD_ZONE)
    then push_trail g (update_player_position g.player target_x target_y delta_time)
    else g
  let g := dodge_block_loop delta_time g (List.range MAX_DODGE_BLOCKS)
  let g := { g with block_spawn_timer := g.block_spawn_timer + delta_time }
  let g :=
    if g.block_spawn_timer ≥ g.dynamic_block_spawn_interval then
      { spawn_dodge_block g r with block_spawn_timer := 0 }
    else g
  let g := { g with current_block_speed := g.current_block_speed + BLOCK_SPEED_INCREMENT * delta_time }
  { g with
    dynamic_block_spawn_interval :=
      max (1 / 2) (g.dynamic_block_spawn_interval - 1 / 100 * delta_time) }

/-- The WINNING case (lines 1288-1307): confetti integrates; once the
animation duration has elapsed, the Dodge round state is cleaned up (only
when the dodge score is positive, restoring the dynamic spawn interval to
its initial value), the session resets, and the machine returns to
PLAYER_SELECTION with the avatar re-centered. -/
def step_winning (g : GS) (delta_time : ℚ) (now : ℕ) : GS :=
  let g := { g with confetti := update_confetti g.confetti delta_time }
  if now - g.win_message_start_time > WIN_ANIMATION_DURATION then
    let g :=
      if g.dodge_score > 0 then
        { g with
          block_spawn_timer := 0
          current_block_speed := BLOCK_INITIAL_SPEED
          dynamic_block_spawn_interval := BLOCK_SPAWN_INTERVAL
          dodge_blocks := g.dodge_blocks.map fun b => { b with active := false }
          dodge_score := 0 }
      else g
    init_player { reset_game_state g with state := .PLAYER_SELECTION }
  else g

/-- The state switch of the frame loop (lines 971-1308). `connect_ok` models
whether `init_xwiimote_non_blocking` succeeds this frame. -/
def dispatch (g : GS) (delta_time : ℚ) (now : ℕ) (connect_ok : Bool) (r : ℕ → ℕ)
    (fuel : ℕ) : Option GS :=
  match g.state with
  | .CONNECTING =>
    if connect_ok then
      some { g with state := .TRANSITIONING, iface_connected := true, transition_start_time := now }
    else some g
  | .TRANSITIONING =>
    if ((now - g.transition_start_time : ℕ) : ℚ) / 1000 ≥ TRANSITION_DURATION then
      some { g with state := .PLAYER_SELECTION }
    else some g
  | .PLAYER_SELECTION => some (step_player_selection g delta_time)
  | .MAIN_MENU => some (step_main_menu g delta_time now)
  | .DIFFICULTY_SELECTION => step_difficulty_selection g delta_time now r fuel
  | .GAME_BALANCE_HOLD => step_balance_or_coin g delta_time now r fuel
  | .GAME_COIN_COLLECTOR => step_balance_or_coin g delta_time now r fuel
  | .GAME_DODGE => some (step_dodge g delta_time r)
  | .WINNING => some (step_winning g delta_time now)

/-- One iteration of the main frame loop (lines 923-1308), logic part:
compute `delta_time` from the tick clock, read the sensor unless connecting
(a disconnection resets the session and jumps to CONNECTING, skipping the
rest of the frame), apply the inactivity timeout, then dispatch on the
state. -/
def frame (g : GS) (p : PollResult) (now : ℕ) (connect_ok : Bool) (r : ℕ → ℕ)
    (fuel : ℕ) : Option GS :=
  let delta_time : ℚ := ((now - g.last_frame_time : ℕ) : ℚ) / 1000
  let g := { g with last_frame_time := now }
  if g.state = .CONNECTING then
    dispatch g delta_time now connect_ok r fuel
  else
    let rr := read_wii_balance_board_data g p
    let g := { g with
      x_cob := rr.x_cob
      y_cob := rr.y_cob
      poll_timeout_count := rr.poll_timeout_count
      current_total_weight := rr.current_total_weight }
    if rr.disconnected then
      some { reset_game_state g with state := .CONNECTING }
    else
      let g :=
        if g.state ≠ .TRANSITIONING ∧ g.current_total_weight < MIN_TOTAL_WEIGHT then
          if now - g.last_input_time > INACTIVITY_TIMEOUT_SECONDS * 1000 then
            { reset_game_state g with state := .CONNECTING }
          else g
        else { g with last_input_time := now }
      dispatch g delta_time now connect_ok r fuel

/-! ## Derived notions used in theorem statements -/

/-- The effective held time after one selection frame: the previous timer
survives only if the choice is unchanged, and `delta_time` accrues only for
a non-empty choice. `selection_timer_step` commits exactly when this
reaches `MENU_SELECT_TIME_REQUIRED`. -/
def held_after {α : Type} [DecidableEq α] (empty prev cur : α) (timer delta_time : ℚ) : ℚ :=
  (if cur = prev then timer else 0) + (if cur ≠ empty then delta_time else 0)

/-- A Dodge block after this frame's leftward movement. -/
def block_moved (b : DodgeBlock) (delta_time : ℚ) : DodgeBlock :=
  { b with x := b.x - b.speed * delta_time }

/-- A block that is active and whose right edge drops below zero after this
frame's movement — the retirement condition of the Dodge scan. -/
def block_crossed (b : DodgeBlock) (delta_time : ℚ) : Bool :=
  b.active && decide (b.x - b.speed * delta_time + BLOCK_WIDTH < 0)

/-- No active block overlaps the avatar after this frame's movement, so the
Dodge scan runs to completion without the collision break. -/
def no_dodge_collision (g : GS) (delta_time : ℚ) : Prop :=
  ∀ i ∈ List.range MAX_DODGE_BLOCKS,
    (g.dodge_blocks.getD i default).active = true →
      block_hits_player (block_moved (g.dodge_blocks.getD i default) delta_time) g.player = false

instance (g : GS) (delta_time : ℚ) : Decidable (no_dodge_collision g delta_time) := by
  unfold no_dodge_collision; infer_instance

/-- A concrete Dodge state: one active block at x = -100 that fully crosses
the left edge in a single dt = 1 frame, far below the avatar. -/
def WGS8 : GS := { initGS with dodge_blocks := [⟨-100, -1000, 10, true⟩] }

/-- A concrete selection-screen state used as a witness: leaning left with
the shared timer at 1.4 s, Balance Hold already selected. -/
def WGS : GS :=
  { initGS with menu_select_timer := 7 / 5, selected_game := .BALANCE_HOLD, current_total_weight := 3000, x_cob := -300, player_selection_choice := 1, difficulty_selection := 1 }

/-! ## Theorems -/

/-- Helper: events that all fail the anti-noise weight gate leave the CoB
out-parameters and the `got_data` flag untouched. -/
theorem process_events_all_below (es : List BBEvent) (x y w : ℚ) (b : Bool)
    (h : ∀ ev ∈ es, ¬ event_weight ev > MIN_TOTAL_WEIGHT) :
    (process_events es x y w b).1 = x ∧ (process_events es x y w b).2.1 = y ∧
      (process_events es x y w b).2.2.2 = b := by
  induction es generalizing w with
  | nil => simp [process_events]
  | cons e rest ih =>
    have he : ¬ event_weight e > MIN_TOTAL_WEIGHT := h e (by simp)
    simpa [process_events, he] using ih _ fun ev hv => h ev (by simp [hv])

/-- C6. For a poll whose balance events all have total weight below the
minimum threshold, the CoB reported by `read_wii_balance_board_data` is
exactly (0, 0); and for an event passing the gate, each reported CoB axis is
independently forced to zero exactly when its magnitude is below the dead
zone. -/
theorem sensor_gate_and_deadzone (g : GS) (es : List BBEvent) (e : BBEvent)
    (hconn : g.iface_connected = true)
    (hall : ∀ ev ∈ es, event_weight ev < MIN_TOTAL_WEIGHT)
    (hgate : event_weight e > MIN_TOTAL_WEIGHT) :
    ((read_wii_balance_board_data g (.events es)).x_cob = 0 ∧
      (read_wii_balance_board_data g (.events es)).y_cob = 0) ∧
    ((read_wii_balance_board_data g (.events [e])).x_cob =
        (if |event_x_cob e| < DEAD_ZONE then 0 else event_x_cob e) ∧
      (read_wii_balance_board_data g (.events [e])).y_cob =
        (if |event_y_cob e| < DEAD_ZONE then 0 else event_y_cob e)) := by
  refine ⟨?_, ?_⟩
  · have h := process_events_all_below es g.x_cob g.y_cob g.current_total_weight false
      fun ev hv => not_lt.mpr (hall ev hv).le
    simp only [read_wii_balance_board_data, hconn]
    simp [h.2.2]
  · simp [read_wii_balance_board_data, hconn, process_events, hgate]

/-- C6 witness: a poll of one light event reports CoB (0, 0); a balanced
heavy event has both raw axes at zero, which the dead zone keeps at zero. -/
theorem sensor_gate_and_deadzone_witness :
    ((read_wii_balance_board_data { initGS with iface_connected := true }
        (.events [⟨1, 1, 1, 1⟩])).x_cob = 0 ∧
      (read_wii_balance_board_data { initGS with iface_connected := true }
        (.events [⟨1, 1, 1, 1⟩])).y_cob = 0) ∧
    ((read_wii_balance_board_data { initGS with iface_connected := true }
        (.events [⟨1000, 1000, 1000, 1000⟩])).x_cob =
        (if |event_x_cob ⟨1000, 1000, 1000, 1000⟩| < DEAD_ZONE then 0
          else event_x_cob ⟨1000, 1000, 1000, 1000⟩) ∧
      (read_wii_balance_board_data { initGS with iface_connected := true }
        (.events [⟨1000, 1000, 1000, 1000⟩])).y_cob =
        (if |event_y_cob ⟨1000, 1000, 1000, 1000⟩| < DEAD_ZONE then 0
          else event_y_cob ⟨1000, 1000, 1000, 1000⟩)) :=
  sensor_gate_and_deadzone _ _ _ rfl
    (by intro ev hv; simp only [List.mem_singleton] at hv; subst hv
        norm_num [event_weight, MIN_TOTAL_WEIGHT])
    (by norm_num [event_weight, MIN_TOTAL_WEIGHT])

/-- C7. Every position the rejection-sampling coin spawn loop produces —
this same loop spawns both the initial coin (`init_coin_collector_game`)
and every respawn after a collection (the Coin-Collector frame) — is
strictly farther from the avatar than the minimum spawn distance (squared
Euclidean form) and lies within the safe margin from all four screen
edges. -/
theorem coin_spawn_satisfies_constraints (px py x y : ℚ) (r : ℕ → ℕ) (fuel : ℕ)
    (h : spawn_coin_loop px py r fuel = some (x, y)) :
    (x - px) ^ 2 + (y - py) ^ 2 > COIN_SPAWN_MIN_DIST_PLAYER ^ 2 ∧
      COIN_SAFE_MARGIN ≤ x ∧ x ≤ WINDOW_WIDTH - COIN_SAFE_MARGIN ∧
      COIN_SAFE_MARGIN ≤ y ∧ y ≤ WINDOW_HEIGHT - COIN_SAFE_MARGIN := by
  induction fuel generalizing r with
  | zero => simp [spawn_coin_loop] at h
  | succ n ih =>
    rw [spawn_coin_loop] at h
    by_cases hacc :
        (((r 0 % 1320 : ℕ) : ℚ) + COIN_SAFE_MARGIN - px) ^ 2 +
          (((r 1 % 480 : ℕ) : ℚ) + COIN_SAFE_MARGIN - py) ^ 2 >
            COIN_SPAWN_MIN_DIST_PLAYER ^ 2
    · rw [if_pos hacc] at h
      obtain ⟨hx, hy⟩ : ((r 0 % 1320 : ℕ) : ℚ) + COIN_SAFE_MARGIN = x ∧
          ((r 1 % 480 : ℕ) : ℚ) + COIN_SAFE_MARGIN = y := by
        simpa using h
      subst hx; subst hy
      have bx : ((r 0 % 1320 : ℕ) : ℚ) ≤ 1319 := by
        have := Nat.mod_lt (r 0) (y := 1320) (by norm_num)
        exact_mod_cast Nat.lt_succ_iff.mp (by omega)
      have bx0 : (0 : ℚ) ≤ ((r 0 % 1320 : ℕ) : ℚ) := by positivity
      have hby : ((r 1 % 480 : ℕ) : ℚ) ≤ 479 := by
        have := Nat.mod_lt (r 1) (y := 480) (by norm_num)
        exact_mod_cast Nat.lt_succ_iff.mp (by omega)
      have hby0 : (0 : ℚ) ≤ ((r 1 % 480 : ℕ) : ℚ) := by positivity
      refine ⟨hacc, ?_, ?_, ?_, ?_⟩ <;>
        simp only [COIN_SAFE_MARGIN, WINDOW_WIDTH, WINDOW_HEIGHT] at * <;> linarith
    · rw [if_neg hacc] at h
      exact ih _ h

/-- C7 witness: a stream of zeros immediately yields the corner candidate
(300, 300), accepted against an avatar at the screen center (960, 540). -/
theorem coin_spawn_satisfies_constraints_witness :
    (300 - (960 : ℚ)) ^ 2 + (300 - (540 : ℚ)) ^ 2 > COIN_SPAWN_MIN_DIST_PLAYER ^ 2 ∧
      COIN_SAFE_MARGIN ≤ (300 : ℚ) ∧ (300 : ℚ) ≤ WINDOW_WIDTH - COIN_SAFE_MARGIN ∧
      COIN_SAFE_MARGIN ≤ (300 : ℚ) ∧ (300 : ℚ) ≤ WINDOW_HEIGHT - COIN_SAFE_MARGIN :=
  coin_spawn_satisfies_constraints 960 540 300 300 (fun _ => 0) 1
    (by norm_num [spawn_coin_loop, COIN_SAFE_MARGIN, COIN_SPAWN_MIN_DIST_PLAYER])

/-- C4. A poll timeout below the threshold of 100 consecutive calls only
increments the counter; at the threshold (the 100th consecutive timeout,
counter arriving at 99) the sensor read reports disconnection, and on any
non-CONNECTING state — in particular every active-play state — the frame
then transitions to CONNECTING with the session context cleared (timeout
counter, menu timer, selections, counters, timers). -/
theorem disconnect_threshold_resets (g : GS) (now : ℕ) (co : Bool) (r : ℕ → ℕ) (fuel : ℕ)
    (hconn : g.iface_connected = true)
    (hstate : g.state ≠ .CONNECTING)
    (hthr : POLL_TIMEOUT_THRESHOLD ≤ g.poll_timeout_count + 1) :
    (∀ c, c + 1 < POLL_TIMEOUT_THRESHOLD →
      (read_wii_balance_board_data { g with poll_timeout_count := c } .timeout).disconnected
          = false ∧
        (read_wii_balance_board_data { g with poll_timeout_count := c }
            .timeout).poll_timeout_count = c + 1) ∧
    (read_wii_balance_board_data g .timeout).disconnected = true ∧
    ((frame g .timeout now co r fuel).map GS.state = some .CONNECTING ∧
      (frame g .timeout now co r fuel).map GS.poll_timeout_count = some 0 ∧
      (frame g .timeout now co r fuel).map GS.menu_select_timer = some 0 ∧
      (frame g .timeout now co r fuel).map GS.selected_game = some .NO_GAME_SELECTED ∧
      (frame g .timeout now co r fuel).map GS.difficulty_selection = some 0 ∧
      (frame g .timeout now co r fuel).map GS.selected_player_index = some (-1) ∧
      (frame g .timeout now co r fuel).map GS.player_selection_choice = some 0 ∧
      (frame g .timeout now co r fuel).map GS.current_game_target = some 0 ∧
      (frame g .timeout now co r fuel).map GS.hold_timer = some 0 ∧
      (frame g .timeout now co r fuel).map GS.coins = some 0 ∧
      (frame g .timeout now co r fuel).map GS.beeps_played = some 0 ∧
      (frame g .timeout now co r fuel).map GS.iface_connected = some false) := by
  refine ⟨fun c hc => ?_, ?_, ?_⟩
  · have : ¬ POLL_TIMEOUT_THRESHOLD ≤ c + 1 := by omega
    simp [read_wii_balance_board_data, hconn, this]
  · simp [read_wii_balance_board_data, hconn, hthr]
  · refine ⟨?_, ?_, ?_, ?_, ?_, ?_, ?_, ?_, ?_, ?_, ?_, ?_⟩ <;>
      simp [frame, read_wii_balance_board_data, reset_game_state, hconn, hthr, hstate]

/-- C4 witness: in Dodge with the timeout counter at 99, the 100th timeout
disconnects and the frame resets to CONNECTING. -/
theorem disconnect_threshold_resets_witness :
    (∀ c, c + 1 < POLL_TIMEOUT_THRESHOLD →
      (read_wii_balance_board_data
          { ({ initGS with state := .GAME_DODGE, iface_connected := true, poll_timeout_count := 99 } : GS) with poll_timeout_count := c }
          .timeout).disconnected = false ∧
        (read_wii_balance_board_data
            { ({ initGS with state := .GAME_DODGE, iface_connected := true, poll_timeout_count := 99 } : GS) with poll_timeout_count := c }
            .timeout).poll_timeout_count = c + 1) ∧
    (read_wii_balance_board_data
        { initGS with state := .GAME_DODGE, iface_connected := true, poll_timeout_count := 99 } .timeout).disconnected = true ∧
    ((frame { initGS with state := .GAME_DODGE, iface_connected := true, poll_timeout_count := 99 } .timeout 0 false (fun _ => 0) 0).map GS.state =
        some .CONNECTING ∧
      (frame { initGS with state := .GAME_DODGE, iface_connected := true, poll_timeout_count := 99 } .timeout 0 false (fun _ => 0) 0).map GS.poll_timeout_count =
        some 0 ∧
      (frame { initGS with state := .GAME_DODGE, iface_connected := true, poll_timeout_count := 99 } .timeout 0 false (fun _ => 0) 0).map GS.menu_select_timer =
        some 0 ∧
      (frame { initGS with state := .GAME_DODGE, iface_connected := true, poll_timeout_count := 99 } .timeout 0 false (fun _ => 0) 0).map GS.selected_game =
        some .NO_GAME_SELECTED ∧
      (frame { initGS with state := .GAME_DODGE, iface_connected := true, poll_timeout_count := 99 } .timeout 0 false (fun _ => 0) 0).map GS.difficulty_selection =
        some 0 ∧
      (frame { initGS with state := .GAME_DODGE, iface_connected := true, poll_timeout_count := 99 } .timeout 0 false (fun _ => 0) 0).map GS.selected_player_index =
        some (-1) ∧
      (frame { initGS with state := .GAME_DODGE, iface_connected := true, poll_timeout_count := 99 } .timeout 0 false (fun _ => 0) 0).map
          GS.player_selection_choice = some 0 ∧
      (frame { initGS with state := .GAME_DODGE, iface_connected := true, poll_timeout_count := 99 } .timeout 0 false (fun _ => 0) 0).map GS.current_game_target =
        some 0 ∧
      (frame { initGS with state := .GAME_DODGE, iface_connected := true, poll_timeout_count := 99 } .timeout 0 false (fun _ => 0) 0).map GS.hold_timer = some 0 ∧
      (frame { initGS with state := .GAME_DODGE, iface_connected := true, poll_timeout_count := 99 } .timeout 0 false (fun _ => 0) 0).map GS.coins = some 0 ∧
      (frame { initGS with state := .GAME_DODGE, iface_connected := true, poll_timeout_count := 99 } .timeout 0 false (fun _ => 0) 0).map GS.beeps_played =
        some 0 ∧
      (frame { initGS with state := .GAME_DODGE, iface_connected := true, poll_timeout_count := 99 } .timeout 0 false (fun _ => 0) 0).map GS.iface_connected =
        some false) :=
  disconnect_threshold_resets _ 0 false (fun _ => 0) 0 rfl (by decide)
    (by norm_num [POLL_TIMEOUT_THRESHOLD])

/-- Helper: the Coin-Collector hard-mode countdown expiry path. When the
remaining time minus the frame delta_time is at or below zero, the
frame resets the session and sets the state to MAIN_MENU. -/
theorem coin_hard_timeout_fields (g : GS) (dt : ℚ) (now : ℕ) (r : ℕ → ℕ) (fuel : ℕ)
    (hst : g.state = .GAME_COIN_COLLECTOR)
    (hhard : g.current_difficulty = .HARD)
    (htime : g.coin_timer - dt ≤ 0) :
    (step_balance_or_coin g dt now r fuel).map GS.state = some .MAIN_MENU ∧
    (step_balance_or_coin g dt now r fuel).map GS.coins = some 0 ∧
    (step_balance_or_coin g dt now r fuel).map GS.current_game_target = some 0 ∧
    (step_balance_or_coin g dt now r fuel).map GS.selected_player_index = some (-1) ∧
    (step_balance_or_coin g dt now r fuel).map GS.menu_select_timer = some 0 := by
  refine ⟨?_, ?_, ?_, ?_, ?_⟩ <;>
    simp [step_balance_or_coin, step_coin_collector, push_trail, reset_game_state, hst, hhard,
      htime, (by decide : (GameState.GAME_COIN_COLLECTOR = GameState.GAME_BALANCE_HOLD) = False)]

/-- C3, counterexample. The claim says the Coin-Collector hard-mode timeout
returns to MainMenu with the selected player index preserved. In hard mode
with player index 1 selected and 0.1 s left on the countdown, a 1 s frame
expires the countdown: the state does return to MAIN_MENU, but the timeout
path calls `reset_game_state`, which clears the selected player index to -1
instead of preserving it. -/
theorem coin_timeout_player_cleared_counterexample :
    ({ initGS with state := .GAME_COIN_COLLECTOR, current_difficulty := .HARD, coin_timer := 1 / 10, selected_player_index := 1 } : GS).selected_player_index = 1 ∧
    (step_balance_or_coin { initGS with state := .GAME_COIN_COLLECTOR, current_difficulty := .HARD, coin_timer := 1 / 10, selected_player_index := 1 } 1 0 (fun _ => 0) 1).map GS.state = some .MAIN_MENU ∧
    (step_balance_or_coin { initGS with state := .GAME_COIN_COLLECTOR, current_difficulty := .HARD, coin_timer := 1 / 10, selected_player_index := 1 } 1 0 (fun _ => 0) 1).map GS.selected_player_index = some (-1) := by
  have h := coin_hard_timeout_fields
    { initGS with state := .GAME_COIN_COLLECTOR, current_difficulty := .HARD, coin_timer := 1 / 10, selected_player_index := 1 }
    1 0 (fun _ => 0) 1 rfl rfl (by norm_num)
  exact ⟨rfl, h.1, h.2.2.2.1⟩

/-- C3, amended. When the Coin-Collector hard-mode countdown expires before
the coin is collected, the state machine returns to MAIN_MENU with the
session score discarded — and, because the timeout path performs the full
session reset, the selected player index is cleared to -1 rather than
preserved. -/
theorem coin_timeout_returns_to_menu (g : GS) (dt : ℚ) (now : ℕ) (r : ℕ → ℕ) (fuel : ℕ)
    (hst : g.state = .GAME_COIN_COLLECTOR)
    (hhard : g.current_difficulty = .HARD)
    (htime : g.coin_timer - dt ≤ 0) :
    (step_balance_or_coin g dt now r fuel).map GS.state = some .MAIN_MENU ∧
    (step_balance_or_coin g dt now r fuel).map GS.coins = some 0 ∧
    (step_balance_or_coin g dt now r fuel).map GS.current_game_target = some 0 ∧
    (step_balance_or_coin g dt now r fuel).map GS.selected_player_index = some (-1) ∧
    (step_balance_or_coin g dt now r fuel).map GS.menu_select_timer = some 0 :=
  coin_hard_timeout_fields g dt now r fuel hst hhard htime

/-- C3 witness: the concrete expiring hard-mode session. -/
theorem coin_timeout_returns_to_menu_witness :
    (step_balance_or_coin { initGS with state := .GAME_COIN_COLLECTOR, current_difficulty := .HARD, coin_timer := 1 / 10, selected_player_index := 2 } 1 5000 (fun _ => 0) 1).map GS.state = some .MAIN_MENU ∧
    (step_balance_or_coin { initGS with state := .GAME_COIN_COLLECTOR, current_difficulty := .HARD, coin_timer := 1 / 10, selected_player_index := 2 } 1 5000 (fun _ => 0) 1).map GS.coins = some 0 ∧
    (step_balance_or_coin { initGS with state := .GAME_COIN_COLLECTOR, current_difficulty := .HARD, coin_timer := 1 / 10, selected_player_index := 2 } 1 5000 (fun _ => 0) 1).map GS.current_game_target = some 0 ∧
    (step_balance_or_coin { initGS with state := .GAME_COIN_COLLECTOR, current_difficulty := .HARD, coin_timer := 1 / 10, selected_player_index := 2 } 1 5000 (fun _ => 0) 1).map GS.selected_player_index = some (-1) ∧
    (step_balance_or_coin { initGS with state := .GAME_COIN_COLLECTOR, current_difficulty := .HARD, coin_timer := 1 / 10, selected_player_index := 2 } 1 5000 (fun _ => 0) 1).map GS.menu_select_timer = some 0 :=
  coin_timeout_returns_to_menu _ 1 5000 (fun _ => 0) 1 rfl rfl (by norm_num)

/-- C10. `init_dodge_game` resets the blocks, spawn timer, block speed and
score but deliberately not the dynamic spawn interval; `reset_game_state`
does not touch the interval either; the WINNING cleanup restores the
interval to its initial value exactly when the dodge score is positive; so
after a Dodge round lost with zero score, the shortened interval carries
over unchanged into the next Dodge session. -/
theorem dodge_interval_carryover (g : GS) (dt : ℚ) (now now2 : ℕ)
    (hanim : now - g.win_message_start_time > WIN_ANIMATION_DURATION) :
    (∀ g2 : GS, ∀ n : ℕ,
      (init_dodge_game g2 n).dynamic_block_spawn_interval = g2.dynamic_block_spawn_interval ∧
      (init_dodge_game g2 n).dodge_score = 0 ∧
      (init_dodge_game g2 n).block_spawn_timer = 0 ∧
      (init_dodge_game g2 n).current_block_speed = BLOCK_INITIAL_SPEED ∧
      ∀ b ∈ (init_dodge_game g2 n).dodge_blocks, b.active = false) ∧
    (∀ g2 : GS,
      (reset_game_state g2).dynamic_block_spawn_interval = g2.dynamic_block_spawn_interval) ∧
    (g.dodge_score > 0 →
      (step_winning g dt now).dynamic_block_spawn_interval = BLOCK_SPAWN_INTERVAL) ∧
    (g.dodge_score ≤ 0 →
      (step_winning g dt now).dynamic_block_spawn_interval = g.dynamic_block_spawn_interval) ∧
    (g.dodge_score = 0 →
      (init_dodge_game (step_winning g dt now) now2).dynamic_block_spawn_interval =
        g.dynamic_block_spawn_interval) := by
  refine ⟨fun g2 n => ⟨?_, ?_, ?_, ?_, ?_⟩, fun g2 => ?_, fun hpos => ?_, fun hle => ?_,
      fun hz => ?_⟩
  · simp [init_dodge_game, init_player]
  · simp [init_dodge_game, init_player]
  · simp [init_dodge_game, init_player]
  · simp [init_dodge_game, init_player]
  · intro b hb
    simp only [init_dodge_game, init_player, List.mem_map] at hb
    obtain ⟨a, -, rfl⟩ := hb
    rfl
  · simp [reset_game_state]
  · simp [step_winning, reset_game_state, init_player, hanim, hpos]
  · have : ¬ g.dodge_score > 0 := not_lt.mpr hle
    simp [step_winning, reset_game_state, init_player, hanim, this]
  · have : ¬ g.dodge_score > 0 := by omega
    simp [init_dodge_game, init_player, step_winning, reset_game_state, hanim, this]

/-- C10 witness: a Dodge round over with score 0 and a shortened interval
of 0.7 s keeps that interval through the Winning exit and the next
`init_dodge_game`. -/
theorem dodge_interval_carryover_witness :
    (∀ g2 : GS, ∀ n : ℕ,
      (init_dodge_game g2 n).dynamic_block_spawn_interval = g2.dynamic_block_spawn_interval ∧
      (init_dodge_game g2 n).dodge_score = 0 ∧
      (init_dodge_game g2 n).block_spawn_timer = 0 ∧
      (init_dodge_game g2 n).current_block_speed = BLOCK_INITIAL_SPEED ∧
      ∀ b ∈ (init_dodge_game g2 n).dodge_blocks, b.active = false) ∧
    (∀ g2 : GS,
      (reset_game_state g2).dynamic_block_spawn_interval = g2.dynamic_block_spawn_interval) ∧
    (({ initGS with state := .WINNING, dodge_score := 0, dynamic_block_spawn_interval := 7 / 10 } : GS).dodge_score > 0 →
      (step_winning { initGS with state := .WINNING, dodge_score := 0, dynamic_block_spawn_interval := 7 / 10 } 1 3000).dynamic_block_spawn_interval =
        BLOCK_SPAWN_INTERVAL) ∧
    (({ initGS with state := .WINNING, dodge_score := 0, dynamic_block_spawn_interval := 7 / 10 } : GS).dodge_score ≤ 0 →
      (step_winning { initGS with state := .WINNING, dodge_score := 0, dynamic_block_spawn_interval := 7 / 10 } 1 3000).dynamic_block_spawn_interval =
        ({ initGS with state := .WINNING, dodge_score := 0, dynamic_block_spawn_interval := 7 / 10 } : GS).dynamic_block_spawn_interval) ∧
    (({ initGS with state := .WINNING, dodge_score := 0, dynamic_block_spawn_interval := 7 / 10 } : GS).dodge_score = 0 →
      (init_dodge_game (step_winning { initGS with state := .WINNING, dodge_score := 0, dynamic_block_spawn_interval := 7 / 10 } 1 3000) 4000).dynamic_block_spawn_interval =
        ({ initGS with state := .WINNING, dodge_score := 0, dynamic_block_spawn_interval := 7 / 10 } : GS).dynamic_block_spawn_interval) :=
  dodge_interval_carryover
    { initGS with state := .WINNING, dodge_score := 0, dynamic_block_spawn_interval := 7 / 10 }
    1 3000 4000 (by norm_num [WIN_ANIMATION_DURATION, initGS])

/-- Helper: the Dodge block scan never touches the avatar, the motion
trail, or any of the win-handling fields. -/
theorem dodge_block_loop_preserves (dt : ℚ) (l : List ℕ) (g : GS) :
    (dodge_block_loop dt g l).player = g.player ∧
    (dodge_block_loop dt g l).trail_points = g.trail_points ∧
    (dodge_block_loop dt g l).trail_head = g.trail_head ∧
    (dodge_block_loop dt g l).total_wins = g.total_wins ∧
    (dodge_block_loop dt g l).lowest_time_to_win = g.lowest_time_to_win ∧
    (dodge_block_loop dt g l).fileWins = g.fileWins ∧
    (dodge_block_loop dt g l).fileLowest = g.fileLowest ∧
    (dodge_block_loop dt g l).confetti = g.confetti ∧
    (dodge_block_loop dt g l).win_message_start_time = g.win_message_start_time := by
  induction l generalizing g with
  | nil => simp [dodge_block_loop]
  | cons i rest ih =>
    simp only [dodge_block_loop]
    split_ifs <;> simp [ih]

/-- Helper: spawning a Dodge block only touches the block pool. -/
theorem spawn_dodge_block_preserves (g : GS) (r : ℕ → ℕ) :
    (spawn_dodge_block g r).state = g.state ∧
    (spawn_dodge_block g r).player = g.player ∧
    (spawn_dodge_block g r).trail_points = g.trail_points ∧
    (spawn_dodge_block g r).trail_head = g.trail_head ∧
    (spawn_dodge_block g r).total_wins = g.total_wins ∧
    (spawn_dodge_block g r).lowest_time_to_win = g.lowest_time_to_win ∧
    (spawn_dodge_block g r).fileWins = g.fileWins ∧
    (spawn_dodge_block g r).fileLowest = g.fileLowest ∧
    (spawn_dodge_block g r).confetti = g.confetti ∧
    (spawn_dodge_block g r).win_message_start_time = g.win_message_start_time := by
  cases h : find_inactive g.dodge_blocks 0 <;> simp [spawn_dodge_block, h]

/-- Helper: the Dodge scan at an active, not-retired block whose rectangle
overlaps the avatar: the round ends (state WINNING) and the scan breaks. -/
theorem dodge_block_loop_collide (dt : ℚ) (g : GS) (i : ℕ) (rest : List ℕ)
    (hact : (g.dodge_blocks.getD i default).active = true)
    (hnr : ¬ ((g.dodge_blocks.getD i default).x - (g.dodge_blocks.getD i default).speed * dt +
      BLOCK_WIDTH < 0))
    (hhit : block_hits_player (block_moved (g.dodge_blocks.getD i default) dt) g.player = true) :
    dodge_block_loop dt g (i :: rest) =
      { g with
        dodge_blocks := g.dodge_blocks.set i (block_moved (g.dodge_blocks.getD i default) dt)
        state := .WINNING } := by
  simp only [dodge_block_loop, hact, if_true, if_neg hnr, block_moved] at *
  simp only [List.getD_eq_getElem?_getD] at hhit
  simp [hhit]

/-- C2, counterexample. The claim says entering Winning in every mode —
Dodge included — updates the best time, increments and persists the win
counter, and initializes the confetti effect. In Dodge, a frame in which a
block overlaps the avatar does set the state to WINNING, but none of the
win handling runs: the total-win counter, persisted wins, confetti, and win
timestamp are all left untouched (the handling block exists only in the
Balance-Hold/Coin-Collector case). -/
theorem dodge_win_entry_no_handling_counterexample :
    (step_dodge { initGS with state := .GAME_DODGE, player := ⟨960, 540, 0, 0⟩, dodge_blocks := ⟨900, 500, 0, true⟩ :: List.replicate 9 ⟨0, 0, 0, false⟩ } 0 (fun _ => 0)).state = .WINNING ∧
    (step_dodge { initGS with state := .GAME_DODGE, player := ⟨960, 540, 0, 0⟩, dodge_blocks := ⟨900, 500, 0, true⟩ :: List.replicate 9 ⟨0, 0, 0, false⟩ } 0 (fun _ => 0)).total_wins = 0 ∧
    (step_dodge { initGS with state := .GAME_DODGE, player := ⟨960, 540, 0, 0⟩, dodge_blocks := ⟨900, 500, 0, true⟩ :: List.replicate 9 ⟨0, 0, 0, false⟩ } 0 (fun _ => 0)).confetti =
      List.replicate NUM_CONFETTI ⟨0, 0, 0, 0, 0⟩ ∧
    (step_dodge { initGS with state := .GAME_DODGE, player := ⟨960, 540, 0, 0⟩, dodge_blocks := ⟨900, 500, 0, true⟩ :: List.replicate 9 ⟨0, 0, 0, false⟩ } 0 (fun _ => 0)).fileWins = 0 ∧
    (step_dodge { initGS with state := .GAME_DODGE, player := ⟨960, 540, 0, 0⟩, dodge_blocks := ⟨900, 500, 0, true⟩ :: List.replicate 9 ⟨0, 0, 0, false⟩ } 0 (fun _ => 0)).win_message_start_time = 0 := by
  have hgate : ¬ (({ initGS with state := .GAME_DODGE, player := ⟨960, 540, 0, 0⟩, dodge_blocks := ⟨900, 500, 0, true⟩ :: List.replicate 9 ⟨0, 0, 0, false⟩ } : GS).current_total_weight > MIN_TOTAL_WEIGHT ∧
      (|({ initGS with state := .GAME_DODGE, player := ⟨960, 540, 0, 0⟩, dodge_blocks := ⟨900, 500, 0, true⟩ :: List.replicate 9 ⟨0, 0, 0, false⟩ } : GS).x_cob| > DEAD_ZONE ∨
       |({ initGS with state := .GAME_DODGE, player := ⟨960, 540, 0, 0⟩, dodge_blocks := ⟨900, 500, 0, true⟩ :: List.replicate 9 ⟨0, 0, 0, false⟩ } : GS).y_cob| > DEAD_ZONE)) := by
    norm_num [initGS, MIN_TOTAL_WEIGHT]
  have hloop := dodge_block_loop_collide 0
    { initGS with state := .GAME_DODGE, player := ⟨960, 540, 0, 0⟩, dodge_blocks := ⟨900, 500, 0, true⟩ :: List.replicate 9 ⟨0, 0, 0, false⟩ }
    0 [1, 2, 3, 4, 5, 6, 7, 8, 9]
    (by simp) (by norm_num [BLOCK_WIDTH])
    (by norm_num [block_hits_player, block_moved, rects_intersect, truncZ])
  refine ⟨?_, ?_, ?_, ?_, ?_⟩ <;>
  · simp only [step_dodge, if_neg hgate,
      (by decide : List.range MAX_DODGE_BLOCKS = [0, 1, 2, 3, 4, 5, 6, 7, 8, 9]), hloop]
    split_ifs <;> simp [spawn_dodge_block_preserves, initGS]

/-- C2, amended. Entering the Winning state performs the win handling —
stamping the win time, updating the persisted best time if improved,
incrementing and persisting the total-win counter, and initializing the
one-shot confetti burst at the avatar — only via the Balance-Hold /
Coin-Collector winning-entry block; the Dodge frame performs none of it,
leaving all of those fields unchanged even when its collision sets the
state to WINNING. -/
theorem win_handling_bh_cc_only (g gd : GS) (dt : ℚ) (now : ℕ) (r : ℕ → ℕ)
    (hW : g.state = .WINNING) :
    ((winning_entry g now r).win_message_start_time = now ∧
      (winning_entry g now r).total_wins = g.total_wins + 1 ∧
      (winning_entry g now r).fileWins = g.total_wins + 1 ∧
      (winning_entry g now r).confetti = init_confetti g.player.x g.player.y r ∧
      (winning_entry g now r).lowest_time_to_win =
        (if g.lowest_time_to_win = -1 ∨
            ((now - g.game_start_time : ℕ) : ℚ) / 1000 < g.lowest_time_to_win
          then ((now - g.game_start_time : ℕ) : ℚ) / 1000 else g.lowest_time_to_win) ∧
      (winning_entry g now r).fileLowest =
        (if g.lowest_time_to_win = -1 ∨
            ((now - g.game_start_time : ℕ) : ℚ) / 1000 < g.lowest_time_to_win
          then ((now - g.game_start_time : ℕ) : ℚ) / 1000 else g.fileLowest)) ∧
    ((step_dodge gd dt r).total_wins = gd.total_wins ∧
      (step_dodge gd dt r).lowest_time_to_win = gd.lowest_time_to_win ∧
      (step_dodge gd dt r).fileWins = gd.fileWins ∧
      (step_dodge gd dt r).fileLowest = gd.fileLowest ∧
      (step_dodge gd dt r).confetti = gd.confetti ∧
      (step_dodge gd dt r).win_message_start_time = gd.win_message_start_time) := by
  constructor
  · by_cases himp : g.lowest_time_to_win = -1 ∨
        ((now - g.game_start_time : ℕ) : ℚ) / 1000 < g.lowest_time_to_win <;>
      simp [winning_entry, hW, himp]
  · refine ⟨?_, ?_, ?_, ?_, ?_, ?_⟩ <;>
    · simp only [step_dodge]
      split_ifs <;>
        simp [push_trail, dodge_block_loop_preserves, spawn_dodge_block_preserves]

/-- C2 witness: the winning-entry effects at a concrete WINNING state, and
the Dodge frame's non-handling at a concrete Dodge state. -/
theorem win_handling_bh_cc_only_witness :
    ((winning_entry { initGS with state := .WINNING } 400 (fun _ => 0)).win_message_start_time = 400 ∧
      (winning_entry { initGS with state := .WINNING } 400 (fun _ => 0)).total_wins =
        ({ initGS with state := .WINNING } : GS).total_wins + 1 ∧
      (winning_entry { initGS with state := .WINNING } 400 (fun _ => 0)).fileWins =
        ({ initGS with state := .WINNING } : GS).total_wins + 1 ∧
      (winning_entry { initGS with state := .WINNING } 400 (fun _ => 0)).confetti =
        init_confetti ({ initGS with state := .WINNING } : GS).player.x
          ({ initGS with state := .WINNING } : GS).player.y (fun _ => 0) ∧
      (winning_entry { initGS with state := .WINNING } 400 (fun _ => 0)).lowest_time_to_win =
        (if ({ initGS with state := .WINNING } : GS).lowest_time_to_win = -1 ∨
            ((400 - ({ initGS with state := .WINNING } : GS).game_start_time : ℕ) : ℚ) / 1000 <
              ({ initGS with state := .WINNING } : GS).lowest_time_to_win
          then ((400 - ({ initGS with state := .WINNING } : GS).game_start_time : ℕ) : ℚ) / 1000
          else ({ initGS with state := .WINNING } : GS).lowest_time_to_win) ∧
      (winning_entry { initGS with state := .WINNING } 400 (fun _ => 0)).fileLowest =
        (if ({ initGS with state := .WINNING } : GS).lowest_time_to_win = -1 ∨
            ((400 - ({ initGS with state := .WINNING } : GS).game_start_time : ℕ) : ℚ) / 1000 <
              ({ initGS with state := .WINNING } : GS).lowest_time_to_win
          then ((400 - ({ initGS with state := .WINNING } : GS).game_start_time : ℕ) : ℚ) / 1000
          else ({ initGS with state := .WINNING } : GS).fileLowest)) ∧
    ((step_dodge { initGS with state := .GAME_DODGE } 1 (fun _ => 0)).total_wins =
        ({ initGS with state := .GAME_DODGE } : GS).total_wins ∧
      (step_dodge { initGS with state := .GAME_DODGE } 1 (fun _ => 0)).lowest_time_to_win =
        ({ initGS with state := .GAME_DODGE } : GS).lowest_time_to_win ∧
      (step_dodge { initGS with state := .GAME_DODGE } 1 (fun _ => 0)).fileWins =
        ({ initGS with state := .GAME_DODGE } : GS).fileWins ∧
      (step_dodge { initGS with state := .GAME_DODGE } 1 (fun _ => 0)).fileLowest =
        ({ initGS with state := .GAME_DODGE } : GS).fileLowest ∧
      (step_dodge { initGS with state := .GAME_DODGE } 1 (fun _ => 0)).confetti =
        ({ initGS with state := .GAME_DODGE } : GS).confetti ∧
      (step_dodge { initGS with state := .GAME_DODGE } 1 (fun _ => 0)).win_message_start_time =
        ({ initGS with state := .GAME_DODGE } : GS).win_message_start_time) :=
  win_handling_bh_cc_only { initGS with state := .WINNING }
    { initGS with state := .GAME_DODGE } 1 400 (fun _ => 0) rfl

/-- C9. In Dodge, on a frame whose total weight is at or below the minimum
threshold, or whose CoB components both lie inside the dead zone, the
Motion Smoother is not invoked: the avatar position, velocity, and the
motion trail are unchanged by the frame. -/
theorem dodge_no_input_freezes_avatar (g : GS) (dt : ℚ) (r : ℕ → ℕ)
    (h : g.current_total_weight ≤ MIN_TOTAL_WEIGHT ∨
      (|g.x_cob| < DEAD_ZONE ∧ |g.y_cob| < DEAD_ZONE)) :
    (step_dodge g dt r).player = g.player ∧
    (step_dodge g dt r).trail_points = g.trail_points ∧
    (step_dodge g dt r).trail_head = g.trail_head := by
  have hcond : ¬ (g.current_total_weight > MIN_TOTAL_WEIGHT ∧
      (|g.x_cob| > DEAD_ZONE ∨ |g.y_cob| > DEAD_ZONE)) := by
    rcases h with h1 | ⟨h2, h3⟩
    · exact fun hc => absurd hc.1 (not_lt.mpr h1)
    · rintro ⟨-, hc | hc⟩
      · exact absurd hc (not_lt.mpr h2.le)
      · exact absurd hc (not_lt.mpr h3.le)
  simp only [step_dodge, if_neg hcond]
  split_ifs <;>
    simp [dodge_block_loop_preserves, spawn_dodge_block_preserves]

/-- C9 witness: a Dodge frame with nobody on the board (weight 0, CoB 0)
leaves the avatar and trail untouched. -/
theorem dodge_no_input_freezes_avatar_witness :
    (step_dodge { initGS with state := .GAME_DODGE } 1 (fun _ => 0)).player =
      ({ initGS with state := .GAME_DODGE } : GS).player ∧
    (step_dodge { initGS with state := .GAME_DODGE } 1 (fun _ => 0)).trail_points =
      ({ initGS with state := .GAME_DODGE } : GS).trail_points ∧
    (step_dodge { initGS with state := .GAME_DODGE } 1 (fun _ => 0)).trail_head =
      ({ initGS with state := .GAME_DODGE } : GS).trail_head :=
  dodge_no_input_freezes_avatar _ 1 (fun _ => 0)
    (Or.inl (by norm_num [initGS, MIN_TOTAL_WEIGHT]))

/-- Helper: a frame whose bucketed choice is the empty choice cannot reach
the commit threshold when the incoming timer is still below it. -/
theorem held_after_lt_of_empty {α : Type} [DecidableEq α] (empty prev : α) (timer dt : ℚ)
    (hT : timer < MENU_SELECT_TIME_REQUIRED) :
    ¬ MENU_SELECT_TIME_REQUIRED ≤ held_after empty prev empty timer dt := by
  unfold held_after
  simp only [ne_eq, not_true_eq_false, if_false, add_zero]
  split_ifs with h
  · exact not_le.mpr hT
  · norm_num [MENU_SELECT_TIME_REQUIRED]

/-- Helper: the three-zone bucketing takes only the values 0, 1, 2, 3. -/
theorem zone_choice_cases (w x : ℚ) :
    zone_choice w x = 0 ∨ zone_choice w x = 1 ∨ zone_choice w x = 2 ∨ zone_choice w x = 3 := by
  unfold zone_choice
  split_ifs <;> simp

/-- Helper: Coin-Collector init preserves the state and the menu timer. -/
theorem init_coin_collector_game_state (g : GS) (now : ℕ) (r : ℕ → ℕ) (fuel : ℕ) (g2 : GS)
    (h : init_coin_collector_game g now r fuel = some g2) :
    g2.state = g.state ∧ g2.menu_select_timer = g.menu_select_timer := by
  simp only [init_coin_collector_game, init_player] at h
  generalize hs : spawn_coin_loop _ _ r fuel = res at h
  rcases res with _ | xy
  · simp at h
  · rcases hd : g.current_difficulty <;>
      simp only [hd, Option.some.injEq] at h <;> rw [← h] <;> simp

/-- Helper: the duplicated selection-timer code computes the commit test and
the new timer from the effective held time `held_after`. -/
theorem selection_timer_step_eq {α : Type} [DecidableEq α] (empty prev cur : α)
    (timer dt : ℚ) :
    selection_timer_step empty prev cur timer dt =
      (if MENU_SELECT_TIME_REQUIRED ≤ held_after empty prev cur timer dt then 0
        else held_after empty prev cur timer dt,
       decide (MENU_SELECT_TIME_REQUIRED ≤ held_after empty prev cur timer dt)) := by
  simp only [selection_timer_step, held_after, ge_iff_le]
  by_cases h1 : cur = prev <;> by_cases h2 : cur = empty <;>
    simp [h1, h2] <;> split_ifs <;> simp_all <;> linarith

/-- C5. At each selection screen the timer follows the held-time discipline:
no choice at all when the total weight is at or below the minimum; the
previous timer is discarded whenever the bucketed choice differs from the
previous frame, and `delta_time` accrues only while a non-empty choice is
held (the `held_after` value); reaching the required hold duration commits
exactly once — the screen is left for the committed successor and the timer
is reset to zero — while below the threshold the timer is the held time and
the state is unchanged. -/
theorem selection_screens_spec (g : GS) (dt : ℚ) (now : ℕ) (r : ℕ → ℕ) (fuel : ℕ)
    (hT : g.menu_select_timer < MENU_SELECT_TIME_REQUIRED)
    (hsel : g.selected_game ≠ .NO_GAME_SELECTED) :
    (g.current_total_weight ≤ MIN_TOTAL_WEIGHT →
      zone_choice g.current_total_weight g.x_cob = 0) ∧
    ((step_player_selection g dt).menu_select_timer =
      (if MENU_SELECT_TIME_REQUIRED ≤ held_after 0 g.player_selection_choice
          (zone_choice g.current_total_weight g.x_cob) g.menu_select_timer dt
        then 0
        else held_after 0 g.player_selection_choice
          (zone_choice g.current_total_weight g.x_cob) g.menu_select_timer dt) ∧
    (MENU_SELECT_TIME_REQUIRED ≤ held_after 0 g.player_selection_choice
        (zone_choice g.current_total_weight g.x_cob) g.menu_select_timer dt →
      (step_player_selection g dt).state = .MAIN_MENU ∧
      zone_choice g.current_total_weight g.x_cob ≠ 0 ∧
      (step_player_selection g dt).selected_player_index =
        zone_choice g.current_total_weight g.x_cob - 1) ∧
    (¬ MENU_SELECT_TIME_REQUIRED ≤ held_after 0 g.player_selection_choice
        (zone_choice g.current_total_weight g.x_cob) g.menu_select_timer dt →
      (step_player_selection g dt).state = g.state ∧
      (step_player_selection g dt).selected_player_index = g.selected_player_index)) ∧
    ((step_main_menu g dt now).menu_select_timer =
      (if MENU_SELECT_TIME_REQUIRED ≤ held_after .NO_GAME_SELECTED g.selected_game
          (game_for_zone (zone_choice g.current_total_weight g.x_cob)) g.menu_select_timer dt
        then 0
        else held_after .NO_GAME_SELECTED g.selected_game
          (game_for_zone (zone_choice g.current_total_weight g.x_cob)) g.menu_select_timer dt) ∧
    (MENU_SELECT_TIME_REQUIRED ≤ held_after .NO_GAME_SELECTED g.selected_game
        (game_for_zone (zone_choice g.current_total_weight g.x_cob)) g.menu_select_timer dt →
      (step_main_menu g dt now).state =
        (if game_for_zone (zone_choice g.current_total_weight g.x_cob) = .DODGE
          then .GAME_DODGE else .DIFFICULTY_SELECTION) ∧
      game_for_zone (zone_choice g.current_total_weight g.x_cob) ≠ .NO_GAME_SELECTED) ∧
    (¬ MENU_SELECT_TIME_REQUIRED ≤ held_after .NO_GAME_SELECTED g.selected_game
        (game_for_zone (zone_choice g.current_total_weight g.x_cob)) g.menu_select_timer dt →
      (step_main_menu g dt now).state = g.state)) ∧
    (∀ g', step_difficulty_selection g dt now r fuel = some g' →
      (g'.menu_select_timer =
        (if MENU_SELECT_TIME_REQUIRED ≤ held_after 0 g.difficulty_selection
            (zone_choice g.current_total_weight g.x_cob) g.menu_select_timer dt
          then 0
          else held_after 0 g.difficulty_selection
            (zone_choice g.current_total_weight g.x_cob) g.menu_select_timer dt) ∧
      (MENU_SELECT_TIME_REQUIRED ≤ held_after 0 g.difficulty_selection
          (zone_choice g.current_total_weight g.x_cob) g.menu_select_timer dt →
        g'.state ≠ .DIFFICULTY_SELECTION ∧
        zone_choice g.current_total_weight g.x_cob ≠ 0) ∧
      (¬ MENU_SELECT_TIME_REQUIRED ≤ held_after 0 g.difficulty_selection
          (zone_choice g.current_total_weight g.x_cob) g.menu_select_timer dt →
        g'.state = g.state))) := by
  refine ⟨?_, ⟨?_, ?_, ?_⟩, ⟨?_, ?_, ?_⟩, ?_⟩
  · intro hw
    simp [zone_choice, not_lt.mpr hw]
  · by_cases hc : MENU_SELECT_TIME_REQUIRED ≤ held_after 0 g.player_selection_choice
        (zone_choice g.current_total_weight g.x_cob) g.menu_select_timer dt <;>
      simp [step_player_selection, selection_timer_step_eq, hc]
  · intro hc
    have hz : zone_choice g.current_total_weight g.x_cob ≠ 0 := by
      intro h0
      rw [h0] at hc
      exact held_after_lt_of_empty _ _ _ _ hT hc
    simp [step_player_selection, selection_timer_step_eq, hc, hz]
  · intro hc
    simp [step_player_selection, selection_timer_step_eq, hc]
  · by_cases hc : MENU_SELECT_TIME_REQUIRED ≤ held_after .NO_GAME_SELECTED g.selected_game
        (game_for_zone (zone_choice g.current_total_weight g.x_cob)) g.menu_select_timer dt <;>
      simp [step_main_menu, selection_timer_step_eq, hc]
  · intro hc
    have hz : game_for_zone (zone_choice g.current_total_weight g.x_cob) ≠
        .NO_GAME_SELECTED := by
      intro h0
      rw [h0] at hc
      exact held_after_lt_of_empty _ _ _ _ hT hc
    refine ⟨?_, hz⟩
    rcases hsg : game_for_zone (zone_choice g.current_total_weight g.x_cob) with _ | _ | _ | _
    · exact absurd hsg hz
    · rw [hsg] at hc
      rw [if_neg (by decide : ¬ (GameType.BALANCE_HOLD = GameType.DODGE))]
      simp [step_main_menu, selection_timer_step_eq, hc, hsg]
    · rw [hsg] at hc
      rw [if_neg (by decide : ¬ (GameType.COIN_COLLECTOR = GameType.DODGE))]
      simp [step_main_menu, selection_timer_step_eq, hc, hsg]
    · rw [hsg] at hc
      rw [if_pos rfl]
      simp [step_main_menu, selection_timer_step_eq, hc, hsg, init_dodge_game, init_player]
  · intro hc
    simp [step_main_menu, selection_timer_step_eq, hc]
  · intro g' hg'
    by_cases hc : MENU_SELECT_TIME_REQUIRED ≤ held_after 0 g.difficulty_selection
        (zone_choice g.current_total_weight g.x_cob) g.menu_select_timer dt
    · have hz : zone_choice g.current_total_weight g.x_cob ≠ 0 := by
        intro h0
        rw [h0] at hc
        exact held_after_lt_of_empty _ _ _ _ hT hc
      simp only [step_difficulty_selection, selection_timer_step_eq] at hg'
      rw [if_pos (by simp [hc] :
        decide (MENU_SELECT_TIME_REQUIRED ≤ held_after 0 g.difficulty_selection
          (zone_choice g.current_total_weight g.x_cob) g.menu_select_timer dt) = true)] at hg'
      rcases zone_choice_cases g.current_total_weight g.x_cob with h0 | hcv | hcv | hcv
      · exact absurd h0 hz
      · rw [hcv] at hg'
        rcases hgame : g.selected_game with _ | _ | _ | _ <;> simp only [hgame] at hg'
        · exact absurd hgame hsel
        · simp only [Option.some.injEq] at hg'
          rw [← hg']
          exact ⟨by simp [hc], fun _ => ⟨by simp [init_balance_hold_game, init_player], hz⟩,
            fun hnc => absurd hc hnc⟩
        · generalize hcc : init_coin_collector_game _ now r fuel = res at hg'
          rcases res with _ | gg
          · simp at hg'
          · simp only [Option.some.injEq] at hg'
            have hst := (init_coin_collector_game_state _ _ _ _ _ hcc).1
            rw [← hg']
            refine ⟨by simp [hc], fun _ => ⟨?_, hz⟩, fun hnc => absurd hc hnc⟩
            simp [hst]
        · simp only [Option.some.injEq] at hg'
          rw [← hg']
          exact ⟨by simp [hc], fun _ => ⟨by simp [init_dodge_game, init_player], hz⟩,
            fun hnc => absurd hc hnc⟩
      · rw [hcv] at hg'
        rcases hgame : g.selected_game with _ | _ | _ | _ <;> simp only [hgame] at hg'
        · exact absurd hgame hsel
        · simp only [Option.some.injEq] at hg'
          rw [← hg']
          exact ⟨by simp [hc], fun _ => ⟨by simp [init_balance_hold_game, init_player], hz⟩,
            fun hnc => absurd hc hnc⟩
        · generalize hcc : init_coin_collector_game _ now r fuel = res at hg'
          rcases res with _ | gg
          · simp at hg'
          · simp only [Option.some.injEq] at hg'
            have hst := (init_coin_collector_game_state _ _ _ _ _ hcc).1
            rw [← hg']
            refine ⟨by simp [hc], fun _ => ⟨?_, hz⟩, fun hnc => absurd hc hnc⟩
            simp [hst]
        · simp only [Option.some.injEq] at hg'
          rw [← hg']
          exact ⟨by simp [hc], fun _ => ⟨by simp [init_dodge_game, init_player], hz⟩,
            fun hnc => absurd hc hnc⟩
      · rw [hcv] at hg'
        rcases hgame : g.selected_game with _ | _ | _ | _ <;> simp only [hgame] at hg'
        · exact absurd hgame hsel
        · simp only [Option.some.injEq] at hg'
          rw [← hg']
          exact ⟨by simp [hc], fun _ => ⟨by simp [init_balance_hold_game, init_player], hz⟩,
            fun hnc => absurd hc hnc⟩
        · generalize hcc : init_coin_collector_game _ now r fuel = res at hg'
          rcases res with _ | gg
          · simp at hg'
          · simp only [Option.some.injEq] at hg'
            have hst := (init_coin_collector_game_state _ _ _ _ _ hcc).1
            rw [← hg']
            refine ⟨by simp [hc], fun _ => ⟨?_, hz⟩, fun hnc => absurd hc hnc⟩
            simp [hst]
        · simp only [Option.some.injEq] at hg'
          rw [← hg']
          exact ⟨by simp [hc], fun _ => ⟨by simp [init_dodge_game, init_player], hz⟩,
            fun hnc => absurd hc hnc⟩
    · simp only [step_difficulty_selection, selection_timer_step_eq] at hg'
      rw [if_neg (by simp [hc] :
        ¬ decide (MENU_SELECT_TIME_REQUIRED ≤ held_after 0 g.difficulty_selection
          (zone_choice g.current_total_weight g.x_cob) g.menu_select_timer dt) = true)] at hg'
      simp only [Option.some.injEq] at hg'
      rw [← hg']
      exact ⟨by simp [hc], fun h => absurd h hc, fun _ => by simp⟩

/-- C5 witness: leaning left with both timers about to cross, all three
screens commit on a 0.2 s frame. -/
theorem selection_screens_spec_witness :
    (WGS.current_total_weight ≤ MIN_TOTAL_WEIGHT →
      zone_choice WGS.current_total_weight WGS.x_cob = 0) ∧
    ((step_player_selection WGS (1 / 5)).menu_select_timer =
      (if MENU_SELECT_TIME_REQUIRED ≤ held_after 0 WGS.player_selection_choice
          (zone_choice WGS.current_total_weight WGS.x_cob) WGS.menu_select_timer (1 / 5)
        then 0
        else held_after 0 WGS.player_selection_choice
          (zone_choice WGS.current_total_weight WGS.x_cob) WGS.menu_select_timer (1 / 5)) ∧
    (MENU_SELECT_TIME_REQUIRED ≤ held_after 0 WGS.player_selection_choice
        (zone_choice WGS.current_total_weight WGS.x_cob) WGS.menu_select_timer (1 / 5) →
      (step_player_selection WGS (1 / 5)).state = .MAIN_MENU ∧
      zone_choice WGS.current_total_weight WGS.x_cob ≠ 0 ∧
      (step_player_selection WGS (1 / 5)).selected_player_index =
        zone_choice WGS.current_total_weight WGS.x_cob - 1) ∧
    (¬ MENU_SELECT_TIME_REQUIRED ≤ held_after 0 WGS.player_selection_choice
        (zone_choice WGS.current_total_weight WGS.x_cob) WGS.menu_select_timer (1 / 5) →
      (step_player_selection WGS (1 / 5)).state = WGS.state ∧
      (step_player_selection WGS (1 / 5)).selected_player_index =
        WGS.selected_player_index)) ∧
    ((step_main_menu WGS (1 / 5) 77).menu_select_timer =
      (if MENU_SELECT_TIME_REQUIRED ≤ held_after .NO_GAME_SELECTED WGS.selected_game
          (game_for_zone (zone_choice WGS.current_total_weight WGS.x_cob))
          WGS.menu_select_timer (1 / 5)
        then 0
        else held_after .NO_GAME_SELECTED WGS.selected_game
          (game_for_zone (zone_choice WGS.current_total_weight WGS.x_cob))
          WGS.menu_select_timer (1 / 5)) ∧
    (MENU_SELECT_TIME_REQUIRED ≤ held_after .NO_GAME_SELECTED WGS.selected_game
        (game_for_zone (zone_choice WGS.current_total_weight WGS.x_cob))
        WGS.menu_select_timer (1 / 5) →
      (step_main_menu WGS (1 / 5) 77).state =
        (if game_for_zone (zone_choice WGS.current_total_weight WGS.x_cob) = .DODGE
          then .GAME_DODGE else .DIFFICULTY_SELECTION) ∧
      game_for_zone (zone_choice WGS.current_total_weight WGS.x_cob) ≠ .NO_GAME_SELECTED) ∧
    (¬ MENU_SELECT_TIME_REQUIRED ≤ held_after .NO_GAME_SELECTED WGS.selected_game
        (game_for_zone (zone_choice WGS.current_total_weight WGS.x_cob))
        WGS.menu_select_timer (1 / 5) →
      (step_main_menu WGS (1 / 5) 77).state = WGS.state)) ∧
    (∀ g', step_difficulty_selection WGS (1 / 5) 77 (fun _ => 0) 1 = some g' →
      (g'.menu_select_timer =
        (if MENU_SELECT_TIME_REQUIRED ≤ held_after 0 WGS.difficulty_selection
            (zone_choice WGS.current_total_weight WGS.x_cob) WGS.menu_select_timer (1 / 5)
          then 0
          else held_after 0 WGS.difficulty_selection
            (zone_choice WGS.current_total_weight WGS.x_cob) WGS.menu_select_timer (1 / 5)) ∧
      (MENU_SELECT_TIME_REQUIRED ≤ held_after 0 WGS.difficulty_selection
          (zone_choice WGS.current_total_weight WGS.x_cob) WGS.menu_select_timer (1 / 5) →
        g'.state ≠ .DIFFICULTY_SELECTION ∧
        zone_choice WGS.current_total_weight WGS.x_cob ≠ 0) ∧
      (¬ MENU_SELECT_TIME_REQUIRED ≤ held_after 0 WGS.difficulty_selection
          (zone_choice WGS.current_total_weight WGS.x_cob) WGS.menu_select_timer (1 / 5) →
        g'.state = WGS.state))) :=
  selection_screens_spec WGS (1 / 5) 77 (fun _ => 0) 1
    (by norm_num [WGS, MENU_SELECT_TIME_REQUIRED]) (by decide)

/-- C1, counterexample. The claim says one Motion Smoother step with dt=0.1
produces, within floating tolerance, the same avatar position as 10 steps
with dt=0.01 for every avatar state and fixed target. At the centered rest
state `(960, 540)` with the target 100 px to the right, the single big step
lands more than 4 px beyond the composition of ten small steps (exact
values: 970 versus 9647099162260688206717771128549/10^28 ≈ 964.71), a gap
far beyond any floating-point tolerance, so the claim is false. -/
theorem motion_smoother_framerate_counterexample :
    (stepPlayerN 1060 540 (1 / 100) 10 ⟨960, 540, 0, 0⟩).x + 4 <
      (stepPlayerN 1060 540 (1 / 10) 1 ⟨960, 540, 0, 0⟩).x := by
  norm_num [stepPlayerN, update_player_position, GAME_OBJECT_SIZE, WINDOW_WIDTH, WINDOW_HEIGHT,
    SPRING_CONSTANT, DAMPING_FACTOR]

/-- C1, amended. `update_player_position` scales its explicit-Euler force
and velocity integration by the real elapsed `dt`, but the step is not
frame-rate independent: from the centered rest avatar with the target
100 px to the right, one step of dt=0.1 puts the avatar at x = 970 while
ten steps of dt=0.01 leave it strictly below x = 965. -/
theorem motion_smoother_step_size_gap :
    (stepPlayerN 1060 540 (1 / 10) 1 ⟨960, 540, 0, 0⟩).x = 970 ∧
      (stepPlayerN 1060 540 (1 / 100) 10 ⟨960, 540, 0, 0⟩).x < 965 := by
  constructor <;>
    norm_num [stepPlayerN, update_player_position, GAME_OBJECT_SIZE, WINDOW_WIDTH, WINDOW_HEIGHT,
      SPRING_CONSTANT, DAMPING_FACTOR]

end BalanceGame
open BalanceGame

theorem getD_set_ne {α : Type} [Inhabited α] (l : List α) (i j : ℕ) (b : α) (h : i ≠ j) :
    (l.set i b).getD j default = l.getD j default := by
  simp [List.getD_eq_getElem?_getD, List.getElem?_set_ne h]

theorem getD_set_self {α : Type} [Inhabited α] (l : List α) (i : ℕ) (b : α)
    (h : i < l.length) : (l.set i b).getD i default = b := by
  simp [List.getD_eq_getElem?_getD, List.getElem?_set_self, h]

theorem dodge_block_loop_cons (dt : ℚ) (g : GS) (i : ℕ) (rest : List ℕ)
    (hnc : (g.dodge_blocks.getD i default).active = true →
      block_hits_player (block_moved (g.dodge_blocks.getD i default) dt) g.player = false) :
    dodge_block_loop dt g (i :: rest) =
      dodge_block_loop dt
        (if block_crossed (g.dodge_blocks.getD i default) dt then
          { g with
            dodge_blocks := g.dodge_blocks.set i
              { block_moved (g.dodge_blocks.getD i default) dt with active := false }
            dodge_score := g.dodge_score + 1
            dodge_high_score :=
              if g.dodge_score + 1 > g.dodge_high_score then g.dodge_score + 1
              else g.dodge_high_score
            fileDodgeHigh :=
              if g.dodge_score + 1 > g.dodge_high_score then g.dodge_score + 1
              else g.fileDodgeHigh }
        else if (g.dodge_blocks.getD i default).active then
          { g with
            dodge_blocks := g.dodge_blocks.set i (block_moved (g.dodge_blocks.getD i default) dt) }
        else g) rest := by
  by_cases hact : (g.dodge_blocks.getD i default).active = true
  · have hhit := hnc hact
    by_cases hcross : (g.dodge_blocks.getD i default).x -
        (g.dodge_blocks.getD i default).speed * dt + BLOCK_WIDTH < 0
    · have hbc : block_crossed (g.dodge_blocks.getD i default) dt = true := by
        simp only [block_crossed, Bool.and_eq_true, decide_eq_true_eq]
        exact ⟨hact, hcross⟩
      simp only [dodge_block_loop]
      rw [if_pos hact, if_pos hcross, if_pos hbc]
      rw [if_neg (by rw [block_moved] at hhit; rw [hhit]; simp)]
      by_cases hhs : g.dodge_score + 1 > g.dodge_high_score
      · rw [if_pos hhs, if_pos hhs, if_pos hhs]
        rfl
      · rw [if_neg hhs, if_neg hhs, if_neg hhs]
        rfl
    · have hbc : ¬ (block_crossed (g.dodge_blocks.getD i default) dt = true) := by
        simp only [block_crossed, Bool.and_eq_true, decide_eq_true_eq, not_and, not_lt]
        intro h1
        exact not_lt.mp hcross
      simp only [dodge_block_loop]
      rw [if_pos hact, if_neg hcross, if_neg hbc, if_pos hact]
      rw [if_neg (by rw [block_moved] at hhit; rw [hhit]; simp)]
      rfl
  · have hbc : ¬ (block_crossed (g.dodge_blocks.getD i default) dt = true) := by
      simp only [block_crossed, Bool.and_eq_true, decide_eq_true_eq, not_and, not_lt]
      intro h1
      exact absurd h1 hact
    simp only [dodge_block_loop]
    rw [if_neg hact, if_neg hbc, if_neg hact]

/-- C8. Over one Dodge-mode scan of a duplicate-free index list in which no
moved block overlaps the avatar, the score increments by exactly the number
of blocks whose right edge fully exits the left screen edge this frame
(each such block is counted once, never twice, because it is deactivated on
that same frame); every crossing block ends the frame moved and inactive,
every non-crossing active block is merely moved, untouched indices keep
their blocks; the in-memory high score is raised to the new score exactly
when some block crossed and the new score exceeds it, and the persisted
high score is rewritten exactly when the in-memory high score rose. -/
theorem dodge_block_loop_spec (dt : ℚ) (l : List ℕ) (g : GS)
    (hnodup : l.Nodup)
    (hlen : ∀ i ∈ l, i < g.dodge_blocks.length)
    (hnc : ∀ i ∈ l, (g.dodge_blocks.getD i default).active = true →
      block_hits_player (block_moved (g.dodge_blocks.getD i default) dt) g.player = false) :
    (dodge_block_loop dt g l).dodge_score = g.dodge_score +
      ((l.filter fun i => block_crossed (g.dodge_blocks.getD i default) dt).length : ℤ) ∧
    (∀ i ∈ l, block_crossed (g.dodge_blocks.getD i default) dt = true →
      (dodge_block_loop dt g l).dodge_blocks.getD i default =
        { block_moved (g.dodge_blocks.getD i default) dt with active := false }) ∧
    (∀ i ∈ l, block_crossed (g.dodge_blocks.getD i default) dt = false →
      (dodge_block_loop dt g l).dodge_blocks.getD i default =
        (if (g.dodge_blocks.getD i default).active then
          block_moved (g.dodge_blocks.getD i default) dt
         else g.dodge_blocks.getD i default)) ∧
    (∀ j, j ∉ l → (dodge_block_loop dt g l).dodge_blocks.getD j default =
      g.dodge_blocks.getD j default) ∧
    (dodge_block_loop dt g l).dodge_high_score =
      (if (l.filter fun i => block_crossed (g.dodge_blocks.getD i default) dt).length = 0
        then g.dodge_high_score
        else if g.dodge_high_score < (dodge_block_loop dt g l).dodge_score
          then (dodge_block_loop dt g l).dodge_score else g.dodge_high_score) ∧
    (dodge_block_loop dt g l).fileDodgeHigh =
      (if g.dodge_high_score < (dodge_block_loop dt g l).dodge_high_score
        then (dodge_block_loop dt g l).dodge_high_score else g.fileDodgeHigh) ∧
    (dodge_block_loop dt g l).state = g.state := by
  induction l generalizing g with
  | nil => simp [dodge_block_loop]
  | cons i rest ih =>
    have hirest : i ∉ rest := (List.nodup_cons.mp hnodup).1
    have hilen : i < g.dodge_blocks.length := hlen i (by simp)
    rw [dodge_block_loop_cons dt g i rest (hnc i (by simp))]
    by_cases hcr : block_crossed (g.dodge_blocks.getD i default) dt = true
    · rw [if_pos hcr]
      generalize hG : ({ g with
        dodge_blocks := g.dodge_blocks.set i
          { block_moved (g.dodge_blocks.getD i default) dt with active := false }
        dodge_score := g.dodge_score + 1
        dodge_high_score :=
          if g.dodge_score + 1 > g.dodge_high_score then g.dodge_score + 1
          else g.dodge_high_score
        fileDodgeHigh :=
          if g.dodge_score + 1 > g.dodge_high_score then g.dodge_score + 1
          else g.fileDodgeHigh } : GS) = g1
      have hGb : g1.dodge_blocks = g.dodge_blocks.set i
          { block_moved (g.dodge_blocks.getD i default) dt with active := false } := by
        rw [← hG]
      have hGs : g1.dodge_score = g.dodge_score + 1 := by rw [← hG]
      have hGh : g1.dodge_high_score =
          if g.dodge_score + 1 > g.dodge_high_score then g.dodge_score + 1
          else g.dodge_high_score := by rw [← hG]
      have hGf : g1.fileDodgeHigh =
          if g.dodge_score + 1 > g.dodge_high_score then g.dodge_score + 1
          else g.fileDodgeHigh := by rw [← hG]
      have hGp : g1.player = g.player := by rw [← hG]
      have hGst : g1.state = g.state := by rw [← hG]
      have htr : ∀ j ∈ rest, g1.dodge_blocks.getD j default = g.dodge_blocks.getD j default := by
        intro j hj
        rw [hGb]
        exact getD_set_ne _ _ _ _ (fun h => hirest (h ▸ hj))
      obtain ⟨ihs, ih2, ih3, ih4, ihh, ihf, ihst⟩ := ih g1
        (List.nodup_cons.mp hnodup).2
        (by
          intro j hj
          rw [hGb, List.length_set]
          exact hlen j (List.mem_cons_of_mem _ hj))
        (by
          intro j hj
          rw [htr j hj, hGp]
          exact hnc j (List.mem_cons_of_mem _ hj))
      have hfr : rest.filter (fun j => block_crossed (g1.dodge_blocks.getD j default) dt) =
          rest.filter (fun j => block_crossed (g.dodge_blocks.getD j default) dt) := by
        apply List.filter_congr
        intro j hj
        rw [htr j hj]
      rw [hfr] at ihs ihh
      have hfc : ((i :: rest).filter
          (fun j => block_crossed (g.dodge_blocks.getD j default) dt)).length =
          (rest.filter (fun j => block_crossed (g.dodge_blocks.getD j default) dt)).length
            + 1 := by
        rw [List.filter_cons, if_pos (by exact hcr)]
        simp
      refine ⟨?_, ?_, ?_, ?_, ?_, ?_, ?_⟩
      · rw [ihs, hGs, hfc]
        push_cast
        ring
      · intro i' hi' hcr'
        rcases List.mem_cons.mp hi' with rfl | hi'r
        · rw [ih4 i' hirest, hGb]
          exact getD_set_self _ _ _ hilen
        · rw [ih2 i' hi'r (by rw [htr i' hi'r]; exact hcr'), htr i' hi'r]
      · intro i' hi' hcr'
        rcases List.mem_cons.mp hi' with rfl | hi'r
        · rw [hcr'] at hcr
          exact absurd hcr (by simp)
        · rw [ih3 i' hi'r (by rw [htr i' hi'r]; exact hcr'), htr i' hi'r]
      · intro j hj
        rw [ih4 j (fun h => hj (List.mem_cons_of_mem _ h)), hGb]
        exact getD_set_ne _ _ _ _ (fun h => hj (h ▸ List.mem_cons_self i rest))
      · simp only [ihh, ihs, hGs, hGh, hfc]
        clear ih ih2 ih3 ih4 ihf ihh ihs ihst hG hGb hGh hGf hGs hGp hGst htr hfr hfc hnc hlen hnodup hcr hirest hilen
        omega
      · simp only [ihf, ihh, ihs, hGs, hGh, hGf, hfc]
        clear ih ih2 ih3 ih4 ihf ihh ihs ihst hG hGb hGh hGf hGs hGp hGst htr hfr hfc hnc hlen hnodup hcr hirest hilen
        omega
      · rw [ihst, hGst]
    · rw [if_neg hcr]
      have hfc : ((i :: rest).filter
          (fun j => block_crossed (g.dodge_blocks.getD j default) dt)).length =
          (rest.filter (fun j => block_crossed (g.dodge_blocks.getD j default) dt)).length := by
        rw [List.filter_cons, if_neg (by exact hcr)]
      by_cases hact : (g.dodge_blocks.getD i default).active = true
      · rw [if_pos hact]
        generalize hG : ({ g with
          dodge_blocks := g.dodge_blocks.set i
            (block_moved (g.dodge_blocks.getD i default) dt) } : GS) = g1
        have hGb : g1.dodge_blocks = g.dodge_blocks.set i
            (block_moved (g.dodge_blocks.getD i default) dt) := by
          rw [← hG]
        have hGs : g1.dodge_score = g.dodge_score := by rw [← hG]
        have hGh : g1.dodge_high_score = g.dodge_high_score := by rw [← hG]
        have hGf : g1.fileDodgeHigh = g.fileDodgeHigh := by rw [← hG]
        have hGp : g1.player = g.player := by rw [← hG]
        have hGst : g1.state = g.state := by rw [← hG]
        have htr : ∀ j ∈ rest, g1.dodge_blocks.getD j default =
            g.dodge_blocks.getD j default := by
          intro j hj
          rw [hGb]
          exact getD_set_ne _ _ _ _ (fun h => hirest (h ▸ hj))
        obtain ⟨ihs, ih2, ih3, ih4, ihh, ihf, ihst⟩ := ih g1
          (List.nodup_cons.mp hnodup).2
          (by
            intro j hj
            rw [hGb, List.length_set]
            exact hlen j (List.mem_cons_of_mem _ hj))
          (by
            intro j hj
            rw [htr j hj, hGp]
            exact hnc j (List.mem_cons_of_mem _ hj))
        have hfr : rest.filter (fun j => block_crossed (g1.dodge_blocks.getD j default) dt) =
            rest.filter (fun j => block_crossed (g.dodge_blocks.getD j default) dt) := by
          apply List.filter_congr
          intro j hj
          rw [htr j hj]
        rw [hfr] at ihs ihh
        refine ⟨?_, ?_, ?_, ?_, ?_, ?_, ?_⟩
        · rw [ihs, hGs, hfc]
        · intro i' hi' hcr'
          rcases List.mem_cons.mp hi' with rfl | hi'r
          · exact absurd hcr' hcr
          · rw [ih2 i' hi'r (by rw [htr i' hi'r]; exact hcr'), htr i' hi'r]
        · intro i' hi' hcr'
          rcases List.mem_cons.mp hi' with rfl | hi'r
          · rw [ih4 i' hirest, hGb, if_pos hact]
            exact getD_set_self _ _ _ hilen
          · rw [ih3 i' hi'r (by rw [htr i' hi'r]; exact hcr'), htr i' hi'r]
        · intro j hj
          rw [ih4 j (fun h => hj (List.mem_cons_of_mem _ h)), hGb]
          exact getD_set_ne _ _ _ _ (fun h => hj (h ▸ List.mem_cons_self i rest))
        · simp only [ihh, ihs, hGs, hGh, hfc]
        · simp only [ihf, ihh, ihs, hGs, hGh, hGf, hfc]
        · rw [ihst, hGst]
      · rw [if_neg hact]
        obtain ⟨ihs, ih2, ih3, ih4, ihh, ihf, ihst⟩ := ih g
          (List.nodup_cons.mp hnodup).2
          (fun j hj => hlen j (List.mem_cons_of_mem _ hj))
          (fun j hj => hnc j (List.mem_cons_of_mem _ hj))
        refine ⟨?_, ?_, ?_, ?_, ?_, ?_, ?_⟩
        · rw [ihs, hfc]
        · intro i' hi' hcr'
          rcases List.mem_cons.mp hi' with rfl | hi'r
          · exact absurd hcr' hcr
          · exact ih2 i' hi'r hcr'
        · intro i' hi' hcr'
          rcases List.mem_cons.mp hi' with rfl | hi'r
          · rw [ih4 i' hirest, if_neg hact]
          · exact ih3 i' hi'r hcr'
        · intro j hj
          exact ih4 j (fun h => hj (List.mem_cons_of_mem _ h))
        · rw [ihh, hfc]
        · exact ihf
        · exact ihst

/-- Witness for C8: a single active block at x = -100 with speed 10 fully
crosses the left edge in one dt = 1 frame without touching the avatar, and
the scan increments the score by exactly the number of crossing blocks. -/
theorem dodge_block_loop_spec_witness :
    ([0] : List ℕ).Nodup ∧
    (∀ i ∈ ([0] : List ℕ), i < WGS8.dodge_blocks.length) ∧
    (∀ i ∈ ([0] : List ℕ), (WGS8.dodge_blocks.getD i default).active = true →
      block_hits_player (block_moved (WGS8.dodge_blocks.getD i default) 1) WGS8.player = false) ∧
    (dodge_block_loop 1 WGS8 [0]).dodge_score = WGS8.dodge_score +
      ((([0] : List ℕ).filter fun i => block_crossed (WGS8.dodge_blocks.getD i default) 1).length : ℤ) := by
  have h1 : ([0] : List ℕ).Nodup := by decide
  have h2 : ∀ i ∈ ([0] : List ℕ), i < WGS8.dodge_blocks.length := by
    intro i hi
    simp only [List.mem_singleton] at hi
    subst hi
    norm_num [WGS8]
  have h3 : ∀ i ∈ ([0] : List ℕ), (WGS8.dodge_blocks.getD i default).active = true →
      block_hits_player (block_moved (WGS8.dodge_blocks.getD i default) 1) WGS8.player = false := by
    intro i hi _
    simp only [List.mem_singleton] at hi
    subst hi
    norm_num [WGS8, initGS, block_hits_player, block_moved, rects_intersect, truncZ, List.getD]
    intro _ _ _
    rw [show ((-1000:ℚ)) = ((-1000 : ℤ) : ℚ) by norm_num, Int.ceil_intCast,
      show ((-75:ℚ)) = ((-75 : ℤ) : ℚ) by norm_num, Int.ceil_intCast]
    norm_num
  exact ⟨h1, h2, h3, (dodge_block_loop_spec 1 [0] WGS8 h1 h2 h3).1⟩
